import Mathlib

/-!
Shallow embedding of the trahn-backend grid-trading core: the grid strategy
module (`services/strategy/gridStrategy.js`), the S/R controller
(`controllers/supportResistanceController.js`), the S/R scheduler
(`services/scheduler/srScheduler.js`) and the trading engine / paper wallet
(`agents/gridbot.js`).  JavaScript numbers are embedded as `ℚ`; fallible
methods return their post-state together with an `Option String` error
(a thrown exception leaves the mutations already applied in place, exactly
as JS object mutation does); external I/O outcomes (price fetch, slippage
draw, gas estimate, eth_call simulation) are passed in as explicit
parameters.
-/

namespace Trahn

/-- Trade side; the source uses the strings "buy" and "sell". -/
inductive Side where
  | buy
  | sell
deriving DecidableEq, Repr

/-- One grid level (`GridLevel` in gridStrategy.js): `filledAt` and `txHash`
are `null` until the level fills; timestamps and transaction references are
embedded as naturals. -/
structure GridLevel where
  index : ℕ
  price : ℚ
  side : Side
  quantity : ℚ
  filled : Bool
  filledAt : Option ℕ
  txHash : Option ℕ
deriving DecidableEq, Repr

/-- An S/R signal as returned by the Dune collaborator or the fallback
(`createFallbackSR`). -/
structure SRSignal where
  support : ℚ
  resistance : ℚ
  midpoint : ℚ
  avgPrice : Option ℚ
  lookbackDays : ℕ
deriving DecidableEq, Repr

/-- gridStrategy.js `createFallbackSR`: support/resistance at ±10% of the
current price, midpoint the price itself. -/
def createFallbackSR (currentPrice : ℚ) : SRSignal :=
  { support := currentPrice * (9 / 10)
    resistance := currentPrice * (11 / 10)
    midpoint := currentPrice
    avgPrice := none
    lookbackDays := 0 }

/-- The offsets `i` of the grid-building loop in `calculateGridLevels`:
`-halfLevels .. halfLevels` with `halfLevels = ⌊levelCount/2⌋`, skipping
`i = 0` when `levelCount` is even. -/
def gridOffsets (levelCount : ℕ) : List ℤ :=
  (((List.range (2 * (levelCount / 2) + 1)).map
      (fun (k : ℕ) => (k : ℤ) - (levelCount / 2 : ℕ))).filter
    (fun i => !(i == 0 && levelCount % 2 == 0)))

/-- The loop body of `calculateGridLevels`: one level per offset, with
`index` the running length of the grid at push time (overwritten by the
re-index step). -/
def rawGridLevels (centerPrice spacingPercent amountPerGrid : ℚ)
    (levelCount : ℕ) : List GridLevel :=
  ((gridOffsets levelCount).enum).map (fun (ki : ℕ × ℤ) =>
    let levelPrice :=
      centerPrice * HPow.hPow (1 + spacingPercent / 100 : ℚ) ki.2
    { index := ki.1
      price := levelPrice
      side := if ki.2 < 0 then Side.buy else Side.sell
      quantity := amountPerGrid / levelPrice
      filled := false
      filledAt := none
      txHash := none })

/-- gridStrategy.js `calculateGridLevels`: validates the configuration,
builds one level per offset, sorts ascending by price
(`grid.sort((a, b) => a.price - b.price)`, embedded as a stable merge
sort on the same key) and re-indexes `0..k-1`. -/
def calculateGridLevels (centerPrice : ℚ) (levelCount : ℕ)
    (spacingPercent amountPerGrid : ℚ) : Except String (List GridLevel) :=
  if centerPrice ≤ 0 then .error "Center price must be positive"
  else if levelCount < 2 then .error "Level count must be at least 2"
  else if spacingPercent ≤ 0 then .error "Spacing percent must be positive"
  else if amountPerGrid ≤ 0 then .error "Amount per grid must be positive"
  else
    let sorted :=
      (rawGridLevels centerPrice spacingPercent amountPerGrid levelCount).mergeSort
        (fun a b => decide (a.price ≤ b.price))
    .ok ((sorted.enum).map (fun (p : ℕ × GridLevel) => { p.2 with index := p.1 }))

/-- The trigger test of `findTriggeredLevel`'s loop body: an unfilled buy
level triggers when the price is at or below it, an unfilled sell level
when the price is at or above it. -/
def levelTriggered (currentPrice : ℚ) (l : GridLevel) : Bool :=
  if l.filled then false
  else if l.side = Side.buy ∧ currentPrice ≤ l.price then true
  else if l.side = Side.sell ∧ l.price ≤ currentPrice then true
  else false

/-- gridStrategy.js `findTriggeredLevel`: scan the grid in order and return
the first triggered level, `null` when none. -/
def findTriggeredLevel (currentPrice : ℚ) : List GridLevel → Option GridLevel
  | [] => none
  | l :: rest =>
    if levelTriggered currentPrice l then some l
    else findTriggeredLevel currentPrice rest

/-- The position (array subscript) of the level `findTriggeredLevel`
returns: the JS function returns the aliased array element, so the engine's
mutation of it is embedded as an update at this position. -/
def findTriggeredPos (currentPrice : ℚ) : List GridLevel → Option ℕ
  | [] => none
  | l :: rest =>
    if levelTriggered currentPrice l then some 0
    else (findTriggeredPos currentPrice rest).map (· + 1)

/-- gridStrategy.js `getOppositeLevelIndex`: `index + 1` after a buy,
`index - 1` after a sell, `null` when out of `[0, gridLength)`. -/
def getOppositeLevelIndex (filledLevel : GridLevel) (gridLength : ℕ) :
    Option ℕ :=
  let oppositeIndex : ℤ :=
    if filledLevel.side = Side.buy then (filledLevel.index : ℤ) + 1
    else (filledLevel.index : ℤ) - 1
  if 0 ≤ oppositeIndex ∧ oppositeIndex < (gridLength : ℤ) then
    some oppositeIndex.toNat
  else none

/-- gridStrategy.js `isPriceOutsideGrid`: `true` on an empty grid,
otherwise strictly below the minimum level price or strictly above the
maximum. -/
def isPriceOutsideGrid (currentPrice : ℚ) (grid : List GridLevel) : Bool :=
  match grid with
  | [] => true
  | l :: ls =>
    let lowestLevel := (ls.map (·.price)).foldl min l.price
    let highestLevel := (ls.map (·.price)).foldl max l.price
    decide (currentPrice < lowestLevel ∨ highestLevel < currentPrice)

/-- gridStrategy.js `areAllSideFilled`: `false` when the side has no
levels, otherwise whether every level of that side is filled. -/
def areAllSideFilled (grid : List GridLevel) (side : Side) : Bool :=
  let sideLevels := grid.filter (fun g => g.side == side)
  if sideLevels.isEmpty then false else sideLevels.all (·.filled)

/-- Result of `SupportResistanceController.checkSignificantChange`; the
source also returns the previous record and a reason string, which carry
no further information. -/
structure SRChangeResult where
  hasChanged : Bool
  changePercent : Option ℚ
deriving DecidableEq, Repr

/-- supportResistanceController.js `checkSignificantChange`:
`previousMidpoint` is the midpoint of the last persisted S/R record
(`getLatestSR`), `none` when the table is empty; absence counts as
changed, otherwise the absolute percent change of the midpoint is
compared against the threshold. -/
def checkSignificantChange (previousMidpoint : Option ℚ) (newMidpoint : ℚ)
    (thresholdPercent : ℚ) : SRChangeResult :=
  match previousMidpoint with
  | none => { hasChanged := true, changePercent := none }
  | some p =>
    let changePercent := |(newMidpoint - p) / p * 100|
    { hasChanged := decide (thresholdPercent ≤ changePercent)
      changePercent := some changePercent }

/-- The scheduler's read-only view of the engine (`getBotInstance()` in
srScheduler.js): the live grid and the engine's last observed price. -/
structure BotView where
  grid : List GridLevel
  lastETHPrice : ℚ
deriving DecidableEq, Repr

/-- The reasons `fetchAndProcessSR` pushes onto its `reasons` list, one
per firing condition. -/
inductive RecalcReason where
  | srChanged
  | priceOutsideGrid
  | allBuysFilled
  | allSellsFilled
deriving DecidableEq, Repr

/-- Outcome of one successful firing of `SRScheduler.fetchAndProcessSR`
(the S/R fetch succeeded): the decision flag, the reasons logged, the
`gridRecalculated` tag persisted with the new S/R record, and whether the
engine's rebuild callback (`onGridRecalculate`) was invoked. -/
structure SRProcessResult where
  shouldRecalculate : Bool
  reasons : List RecalcReason
  recordedGridRecalculated : Bool
  rebuildInvoked : Bool
deriving DecidableEq, Repr

/-- srScheduler.js `SRScheduler.fetchAndProcessSR` (the intelligent-recalc
version), for a firing in which the Dune fetch succeeded and returned
`sr`.  `previousMidpoint` is the midpoint of the last persisted S/R
record, `bot` the engine view (`none` when `getBotInstance` is unset or
returns nothing), `hasRecalcCallback` whether `onGridRecalculate` is
configured.  The three conditions are evaluated exactly as in the source:
condition 1 unconditionally, conditions 2 and 3 only when a bot with a
non-empty grid is available, condition 2 additionally only when the last
observed price is positive. -/
def fetchAndProcessSR (previousMidpoint : Option ℚ) (sr : SRSignal)
    (srChangeThreshold : ℚ) (bot : Option BotView)
    (hasRecalcCallback : Bool) : SRProcessResult :=
  let srChange := checkSignificantChange previousMidpoint sr.midpoint srChangeThreshold
  let s1 : Bool × List RecalcReason :=
    if srChange.hasChanged then (true, [RecalcReason.srChanged]) else (false, [])
  let s4 : Bool × List RecalcReason :=
    match bot with
    | none => s1
    | some b =>
      if 0 < b.grid.length then
        let s2 :=
          if 0 < b.lastETHPrice ∧ isPriceOutsideGrid b.lastETHPrice b.grid then
            (true, s1.2 ++ [RecalcReason.priceOutsideGrid])
          else s1
        let s3 :=
          if areAllSideFilled b.grid Side.buy then
            (true, s2.2 ++ [RecalcReason.allBuysFilled])
          else s2
        if areAllSideFilled b.grid Side.sell then
          (true, s3.2 ++ [RecalcReason.allSellsFilled])
        else s3
      else s1
  { shouldRecalculate := s4.1
    reasons := s4.2
    recordedGridRecalculated := s4.1
    rebuildInvoked := s4.1 && hasRecalcCallback }

/-- One record of the paper wallet's trade history
(`PaperWallet.recordTrade` plus the fields `executeBuy`/`executeSell`
pass it in gridbot.js). -/
structure PaperTrade where
  id : ℕ
  side : Side
  gridLevel : ℕ
  triggerPrice : ℚ
  executionPrice : ℚ
  amountETH : ℚ
  amountUSDC : ℚ
  slippagePercent : ℚ
  gasCost : ℚ
  balanceAfterEth : ℚ
  balanceAfterUsdc : ℚ
deriving DecidableEq, Repr

/-- gridbot.js `PaperWallet`: the virtual ledger.  `saves` counts calls to
`saveState` (persistence to the wallet's own state file); the start time is
not modelled. -/
structure PaperWallet where
  ethBalance : ℚ
  usdcBalance : ℚ
  initialETH : ℚ
  initialUSDC : ℚ
  trades : List PaperTrade
  totalGasSpent : ℚ
  saves : ℕ
deriving DecidableEq, Repr

/-- `PaperWallet.saveState`: persist the wallet (modelled as bumping the
save counter). -/
def PaperWallet.saveState (w : PaperWallet) : PaperWallet :=
  { w with saves := w.saves + 1 }

/-- `PaperWallet.deductGas`: subtract the gas from the ETH balance and
accumulate it, unconditionally. -/
def PaperWallet.deductGas (w : PaperWallet) (gasETH : ℚ) : PaperWallet :=
  { w with ethBalance := w.ethBalance - gasETH
           totalGasSpent := w.totalGasSpent + gasETH }

/-- `PaperWallet.recordTrade`: append the trade (id `length + 1`, balances
after) and persist; returns the stored record. -/
def PaperWallet.recordTrade (w : PaperWallet) (side : Side) (gridLevel : ℕ)
    (triggerPrice executionPrice amountETH amountUSDC slippagePercent gasCost : ℚ) :
    PaperTrade × PaperWallet :=
  let trade : PaperTrade :=
    { id := w.trades.length + 1
      side := side
      gridLevel := gridLevel
      triggerPrice := triggerPrice
      executionPrice := executionPrice
      amountETH := amountETH
      amountUSDC := amountUSDC
      slippagePercent := slippagePercent
      gasCost := gasCost
      balanceAfterEth := w.ethBalance
      balanceAfterUsdc := w.usdcBalance }
  (trade, PaperWallet.saveState { w with trades := w.trades ++ [trade] })

/-- `PaperWallet.executeBuy(usdcAmount, ethAmount)`: throw when the USDC
balance is short (the wallet is untouched), otherwise debit USDC, credit
ETH and persist.  The second component is the thrown error, `none` on
success. -/
def PaperWallet.executeBuy (w : PaperWallet) (usdcAmount ethAmount : ℚ) :
    PaperWallet × Option String :=
  if w.usdcBalance < usdcAmount then (w, some "Insufficient USDC")
  else
    (PaperWallet.saveState
      { w with usdcBalance := w.usdcBalance - usdcAmount
               ethBalance := w.ethBalance + ethAmount }, none)

/-- `PaperWallet.executeSell(ethAmount, usdcAmount)`: throw when the ETH
balance is short (the wallet is untouched), otherwise debit ETH, credit
USDC and persist. -/
def PaperWallet.executeSell (w : PaperWallet) (ethAmount usdcAmount : ℚ) :
    PaperWallet × Option String :=
  if w.ethBalance < ethAmount then (w, some "Insufficient ETH")
  else
    (PaperWallet.saveState
      { w with ethBalance := w.ethBalance - ethAmount
               usdcBalance := w.usdcBalance + usdcAmount }, none)

/-- gridbot.js `TrahnGridTradingBot`: the engine state the claims touch.
`saves` counts `saveState` calls (grid-state persistence); collaborator
handles (web3, Dune, history store, chat) are external and not part of the
state. -/
structure TrahnGridTradingBot where
  paperTrading : Bool
  gridLevels : ℕ
  gridSpacingPercent : ℚ
  amountPerGrid : ℚ
  basePrice : ℚ
  grid : List GridLevel
  lastETHPrice : ℚ
  priceChecks : ℕ
  tradesExecuted : ℕ
  paperWallet : PaperWallet
  saves : ℕ
deriving DecidableEq, Repr

/-- `TrahnGridTradingBot.saveState`: persist the grid state (modelled as
bumping the save counter). -/
def TrahnGridTradingBot.saveState (bot : TrahnGridTradingBot) :
    TrahnGridTradingBot :=
  { bot with saves := bot.saves + 1 }

/-- The outcomes of the engine's external effects during one trade
execution, passed in explicitly: the slippage drawn by
`calculatePaperSlippage` (uniform in `[0, paperSlippagePercent/100]`), the
gas estimate of `estimatePaperGasCost`, whether `signAndSend` succeeds
(paper mode: the `eth_call` simulation; live mode: the broadcast), and the
timestamp / transaction reference recorded on a fill. -/
structure ExecEnv where
  slippage : ℚ
  gasCost : ℚ
  sendOk : Bool
  now : ℕ
  txRef : ℕ
deriving DecidableEq, Repr

/-- gridbot.js `TrahnGridTradingBot.maybeCreateOppositeLevel`: after a fill
at `filledLevel`, reset the adjacent opposite level (by
`getOppositeLevelIndex`) to unfilled — clearing `filledAt` and `txHash` —
if it exists and was filled, then persist. -/
def TrahnGridTradingBot.maybeCreateOppositeLevel (bot : TrahnGridTradingBot)
    (filledLevel : GridLevel) : TrahnGridTradingBot :=
  match getOppositeLevelIndex filledLevel bot.grid.length with
  | none => bot
  | some oppositeIndex =>
    match bot.grid.get? oppositeIndex with
    | none => bot
    | some adjacentLevel =>
      if adjacentLevel.filled then
        let resetLevel :=
          { adjacentLevel with filled := false, filledAt := none, txHash := none }
        TrahnGridTradingBot.saveState
          { bot with grid := bot.grid.set oppositeIndex resetLevel }
      else bot

/-- gridbot.js `TrahnGridTradingBot.executeBuy(level, currentPrice)` where
`level` is the grid element at position `pos` (the JS function receives
the aliased array element).  Paper branch: draw slippage and gas, check
the USDC balance, apply the wallet debit/credit, deduct gas, record the
trade, then run the `eth_call` simulation (`swapUSDCForETH` →
`signAndSend`); only if the simulation succeeds is the level marked
filled, the trade counter bumped, state persisted and the opposite level
reset.  A thrown error leaves every mutation already applied in place.
Live branch: the swap is broadcast and the same level bookkeeping runs on
success. -/
def TrahnGridTradingBot.executeBuy (env : ExecEnv) (bot : TrahnGridTradingBot)
    (pos : ℕ) (currentPrice : ℚ) : TrahnGridTradingBot × Option String :=
  match bot.grid.get? pos with
  | none => (bot, some "invalid level")
  | some level =>
    let ethAmount := level.quantity
    let usdcAmount := ethAmount * currentPrice
    if bot.paperTrading then
      let actualETHReceived := ethAmount * (1 - env.slippage)
      if bot.paperWallet.usdcBalance < usdcAmount then
        (bot, some "Insufficient USDC")
      else
        match PaperWallet.executeBuy bot.paperWallet usdcAmount actualETHReceived with
        | (w1, some e) => ({ bot with paperWallet := w1 }, some e)
        | (w1, none) =>
          let w2 := PaperWallet.deductGas w1 env.gasCost
          let w3 := (PaperWallet.recordTrade w2 Side.buy level.index level.price
            currentPrice actualETHReceived usdcAmount (env.slippage * 100) env.gasCost).2
          let bot1 := { bot with paperWallet := w3 }
          if env.sendOk then
            let newLevel :=
              { level with filled := true, filledAt := some env.now, txHash := some env.txRef }
            let bot2 := TrahnGridTradingBot.saveState
              { bot1 with grid := bot1.grid.set pos newLevel
                          tradesExecuted := bot1.tradesExecuted + 1 }
            (TrahnGridTradingBot.maybeCreateOppositeLevel bot2 newLevel, none)
          else (bot1, some "Simulation failed")
    else
      if env.sendOk then
        let newLevel :=
          { level with filled := true, filledAt := some env.now, txHash := some env.txRef }
        let bot2 := TrahnGridTradingBot.saveState
          { bot with grid := bot.grid.set pos newLevel
                     tradesExecuted := bot.tradesExecuted + 1 }
        (TrahnGridTradingBot.maybeCreateOppositeLevel bot2 newLevel, none)
      else (bot, some "ExecutionFailed")

/-- gridbot.js `TrahnGridTradingBot.executeSell(level, currentPrice)`:
mirror image of the buy path; the paper balance check is
`ethBalance < ethAmount + gasCost` (gas included, unlike the buy side). -/
def TrahnGridTradingBot.executeSell (env : ExecEnv) (bot : TrahnGridTradingBot)
    (pos : ℕ) (currentPrice : ℚ) : TrahnGridTradingBot × Option String :=
  match bot.grid.get? pos with
  | none => (bot, some "invalid level")
  | some level =>
    let ethAmount := level.quantity
    let expectedUSDC := ethAmount * currentPrice
    if bot.paperTrading then
      let actualUSDCReceived := expectedUSDC * (1 - env.slippage)
      if bot.paperWallet.ethBalance < ethAmount + env.gasCost then
        (bot, some "Insufficient ETH")
      else
        match PaperWallet.executeSell bot.paperWallet ethAmount actualUSDCReceived with
        | (w1, some e) => ({ bot with paperWallet := w1 }, some e)
        | (w1, none) =>
          let w2 := PaperWallet.deductGas w1 env.gasCost
          let w3 := (PaperWallet.recordTrade w2 Side.sell level.index level.price
            currentPrice ethAmount actualUSDCReceived (env.slippage * 100) env.gasCost).2
          let bot1 := { bot with paperWallet := w3 }
          if env.sendOk then
            let newLevel :=
              { level with filled := true, filledAt := some env.now, txHash := some env.txRef }
            let bot2 := TrahnGridTradingBot.saveState
              { bot1 with grid := bot1.grid.set pos newLevel
                          tradesExecuted := bot1.tradesExecuted + 1 }
            (TrahnGridTradingBot.maybeCreateOppositeLevel bot2 newLevel, none)
          else (bot1, some "Simulation failed")
    else
      if env.sendOk then
        let newLevel :=
          { level with filled := true, filledAt := some env.now, txHash := some env.txRef }
        let bot2 := TrahnGridTradingBot.saveState
          { bot with grid := bot.grid.set pos newLevel
                     tradesExecuted := bot.tradesExecuted + 1 }
        (TrahnGridTradingBot.maybeCreateOppositeLevel bot2 newLevel, none)
      else (bot, some "ExecutionFailed")

/-- gridbot.js `TrahnGridTradingBot.executeTrade`: dispatch on the level's
side. -/
def TrahnGridTradingBot.executeTrade (env : ExecEnv) (bot : TrahnGridTradingBot)
    (pos : ℕ) (currentPrice : ℚ) : TrahnGridTradingBot × Option String :=
  match bot.grid.get? pos with
  | none => (bot, some "invalid level")
  | some level =>
    if level.side = Side.buy then TrahnGridTradingBot.executeBuy env bot pos currentPrice
    else TrahnGridTradingBot.executeSell env bot pos currentPrice

/-- gridbot.js `TrahnGridTradingBot.fetchETHPrice`: `fetchResult` is the
CoinGecko response (`none` when the request or parse threw).  A fetched
price failing the sanity bound (below 100 or above 100000) throws into the
same catch; the catch returns `lastETHPrice || 0`, i.e. the last known
price, leaving it unchanged.  A sane price is stored as the new
`lastETHPrice`. -/
def TrahnGridTradingBot.fetchETHPrice (bot : TrahnGridTradingBot)
    (fetchResult : Option ℚ) : ℚ × TrahnGridTradingBot :=
  match fetchResult with
  | some price =>
    if price < 100 ∨ 100000 < price then (bot.lastETHPrice, bot)
    else (price, { bot with lastETHPrice := price })
  | none => (bot.lastETHPrice, bot)

/-- gridbot.js `TrahnGridTradingBot.tick`: bump the price-check counter,
fetch the price, skip when it is not positive, otherwise execute the first
triggered level if any (an execution error is caught and logged, so the
tick always completes).  The periodic status report mutates none of the
modelled state and is omitted. -/
def TrahnGridTradingBot.tick (env : ExecEnv) (bot : TrahnGridTradingBot)
    (fetchResult : Option ℚ) : TrahnGridTradingBot :=
  let bot1 := { bot with priceChecks := bot.priceChecks + 1 }
  let fr := TrahnGridTradingBot.fetchETHPrice bot1 fetchResult
  if fr.1 ≤ 0 then fr.2
  else
    match findTriggeredPos fr.1 fr.2.grid with
    | none => fr.2
    | some pos => (TrahnGridTradingBot.executeTrade env fr.2 pos fr.1).1

/-- gridbot.js `TrahnGridTradingBot.initializeGrid`, with the fetched S/R
signal and the current price passed in: the center is
`this.basePrice || sr.midpoint` (a configured non-zero base price wins,
zero means auto-detect), assigned to `basePrice` before the price check;
an invalid current price throws with the base price already updated;
otherwise the grid is rebuilt through `calculateGridLevels` (whose
validation error would propagate) and state is persisted. -/
def TrahnGridTradingBot.initializeGrid (bot : TrahnGridTradingBot)
    (sr : SRSignal) (currentPrice : ℚ) : TrahnGridTradingBot × Option String :=
  let centerPrice := if bot.basePrice ≠ 0 then bot.basePrice else sr.midpoint
  let bot1 := { bot with basePrice := centerPrice }
  if currentPrice ≤ 0 then
    (bot1, some "Cannot initialize grid: invalid ETH price")
  else
    match calculateGridLevels centerPrice bot.gridLevels bot.gridSpacingPercent
        bot.amountPerGrid with
    | .error e => (bot1, some e)
    | .ok g => (TrahnGridTradingBot.saveState { bot1 with grid := g }, none)

/-! ## Helper lemmas -/

@[simp]
lemma sell_eq_buy_iff : (Side.sell = Side.buy) ↔ False := by
  constructor
  · intro h
    cases h
  · intro h
    cases h

@[simp]
lemma buy_eq_sell_iff : (Side.buy = Side.sell) ↔ False := by
  constructor
  · intro h
    cases h
  · intro h
    cases h

lemma lt_foldl_min {p a : ℚ} {xs : List ℚ} :
    p < xs.foldl min a ↔ p < a ∧ ∀ x ∈ xs, p < x := by
  induction xs generalizing a with
  | nil => simp
  | cons x xs ih =>
    simp only [List.foldl_cons, List.mem_cons, ih, lt_min_iff]
    constructor
    · rintro ⟨⟨ha, hx⟩, hall⟩
      exact ⟨ha, fun y hy => hy.elim (fun h => h ▸ hx) (hall y)⟩
    · rintro ⟨ha, hall⟩
      exact ⟨⟨ha, hall x (Or.inl rfl)⟩, fun y hy => hall y (Or.inr hy)⟩

lemma foldl_max_lt {p a : ℚ} {xs : List ℚ} :
    xs.foldl max a < p ↔ a < p ∧ ∀ x ∈ xs, x < p := by
  induction xs generalizing a with
  | nil => simp
  | cons x xs ih =>
    simp only [List.foldl_cons, List.mem_cons, ih, max_lt_iff]
    constructor
    · rintro ⟨⟨ha, hx⟩, hall⟩
      exact ⟨ha, fun y hy => hy.elim (fun h => h ▸ hx) (hall y)⟩
    · rintro ⟨ha, hall⟩
      exact ⟨⟨ha, hall x (Or.inl rfl)⟩, fun y hy => hall y (Or.inr hy)⟩

/-- For a non-empty grid, the code's breakout test holds exactly when the
price is strictly below every level or strictly above every level. -/
lemma isPriceOutsideGrid_iff {p : ℚ} {g : List GridLevel} (hg : g ≠ []) :
    isPriceOutsideGrid p g = true ↔
      (∀ l ∈ g, p < l.price) ∨ (∀ l ∈ g, l.price < p) := by
  match g with
  | [] => exact absurd rfl hg
  | l :: ls =>
    simp only [isPriceOutsideGrid, decide_eq_true_eq]
    rw [lt_foldl_min, foldl_max_lt]
    simp only [List.mem_cons, List.mem_map]
    constructor
    · rintro (⟨ha, hall⟩ | ⟨ha, hall⟩)
      · exact Or.inl (fun x hx => hx.elim (fun h => h ▸ ha)
          (fun h => hall x.price ⟨x, h, rfl⟩))
      · exact Or.inr (fun x hx => hx.elim (fun h => h ▸ ha)
          (fun h => hall x.price ⟨x, h, rfl⟩))
    · rintro (hall | hall)
      · exact Or.inl ⟨hall l (Or.inl rfl), by rintro q ⟨x, hx, rfl⟩; exact hall x (Or.inr hx)⟩
      · exact Or.inr ⟨hall l (Or.inl rfl), by rintro q ⟨x, hx, rfl⟩; exact hall x (Or.inr hx)⟩

/-- The code's exhaustion test for one side holds exactly when the side has
at least one level and all its levels are filled. -/
lemma areAllSideFilled_iff (g : List GridLevel) (side : Side) :
    areAllSideFilled g side = true ↔
      (∃ l ∈ g, l.side = side) ∧ (∀ l ∈ g, l.side = side → l.filled = true) := by
  simp only [areAllSideFilled]
  by_cases he : (g.filter (fun x => x.side == side)).isEmpty
  · rw [if_pos he]
    rw [List.isEmpty_iff] at he
    have : ∀ l ∈ g, ¬ l.side = side := by
      intro l hl hside
      have : l ∈ g.filter (fun x => x.side == side) :=
        List.mem_filter.mpr ⟨hl, by simp [hside]⟩
      simp [he] at this
    constructor
    · intro h
      exact absurd h (by simp)
    · rintro ⟨⟨l, hl, hside⟩, -⟩
      exact absurd hside (this l hl)
  · rw [if_neg he]
    rw [List.isEmpty_iff] at he
    rcases List.exists_mem_of_ne_nil _ he with ⟨l0, hl0⟩
    rcases List.mem_filter.mp hl0 with ⟨hl0g, hl0s⟩
    simp only [List.all_eq_true, List.mem_filter, beq_iff_eq] at hl0s ⊢
    constructor
    · intro h
      exact ⟨⟨l0, hl0g, hl0s⟩, fun l hl hside => h l ⟨hl, hside⟩⟩
    · rintro ⟨-, h⟩ l ⟨hl, hside⟩
      exact h l hl hside

/-- The significant-change test holds exactly when there is no previous
persisted record, or the absolute midpoint change reaches the threshold. -/
lemma hasChanged_iff (prev : Option ℚ) (mid th : ℚ) :
    (checkSignificantChange prev mid th).hasChanged = true ↔
      (prev = none ∨ ∃ pm, prev = some pm ∧ th ≤ |(mid - pm) / pm * 100|) := by
  cases prev with
  | none => simp [checkSignificantChange]
  | some pm => simp [checkSignificantChange]

/-! ## C7: significant-change test -/

/-- C7: `checkSignificantChange` fires exactly when
`|newMidpoint - previousMidpoint| / previousMidpoint * 100` (against the
last persisted record's midpoint, for a positive previous midpoint)
reaches the threshold; a missing previous record counts as changed; at
threshold 5, `3100 → 3255` (5.0%) fires and `3100 → 3145` (≈1.45%) does
not. -/
theorem checkSignificantChange_spec (newMid th pm : ℚ) (hpm : 0 < pm) :
    (checkSignificantChange none newMid th).hasChanged = true ∧
    ((checkSignificantChange (some pm) newMid th).hasChanged = true ↔
      th ≤ |newMid - pm| / pm * 100) ∧
    (checkSignificantChange (some 3100) 3255 5).hasChanged = true ∧
    (checkSignificantChange (some 3100) 3145 5).hasChanged = false := by
  refine ⟨rfl, ?_, by simp only [checkSignificantChange]; norm_num, by
    simp only [checkSignificantChange]
    norm_num
    rw [abs_of_nonneg (by norm_num)]
    norm_num⟩
  have habs : |(newMid - pm) / pm * 100| = |newMid - pm| / pm * 100 := by
    rw [abs_mul, abs_div, abs_of_pos hpm]
    norm_num
  simp [checkSignificantChange, habs]

/-- C7 witness: the general statement at `newMid = 3255`, `th = 5`,
`pm = 3100`. -/
theorem checkSignificantChange_spec_witness :
    (checkSignificantChange none 3255 5).hasChanged = true ∧
    ((checkSignificantChange (some 3100) 3255 5).hasChanged = true ↔
      (5 : ℚ) ≤ |3255 - 3100| / 3100 * 100) ∧
    (checkSignificantChange (some 3100) 3255 5).hasChanged = true ∧
    (checkSignificantChange (some 3100) 3145 5).hasChanged = false :=
  checkSignificantChange_spec 3255 5 3100 (by norm_num)

/-! ## C8: paper wallet balance checks -/

/-- C8: `PaperWallet.executeBuy` fails when the USDC balance is below the
requested USDC amount and `PaperWallet.executeSell` fails when the ETH
balance is below the requested ETH amount; on failure the wallet is
returned exactly unchanged; on success both sides are debited/credited
together and the state is persisted (save counter bumped). -/
theorem paperWallet_execute_spec (w : PaperWallet) (qa ba sa sq : ℚ) :
    ((PaperWallet.executeBuy w qa ba).2.isSome ↔ w.usdcBalance < qa) ∧
    (w.usdcBalance < qa →
      PaperWallet.executeBuy w qa ba = (w, some "Insufficient USDC")) ∧
    (¬ w.usdcBalance < qa →
      PaperWallet.executeBuy w qa ba =
        ({ w with usdcBalance := w.usdcBalance - qa,
                  ethBalance := w.ethBalance + ba,
                  saves := w.saves + 1 }, none)) ∧
    ((PaperWallet.executeSell w sa sq).2.isSome ↔ w.ethBalance < sa) ∧
    (w.ethBalance < sa →
      PaperWallet.executeSell w sa sq = (w, some "Insufficient ETH")) ∧
    (¬ w.ethBalance < sa →
      PaperWallet.executeSell w sa sq =
        ({ w with ethBalance := w.ethBalance - sa,
                  usdcBalance := w.usdcBalance + sq,
                  saves := w.saves + 1 }, none)) := by
  unfold PaperWallet.executeBuy PaperWallet.executeSell
  by_cases hb : w.usdcBalance < qa <;> by_cases hsl : w.ethBalance < sa <;>
    simp [hb, hsl, PaperWallet.saveState]

/-! ## C6: trigger detection -/

/-- C6: `findTriggeredLevel` returns the first level of the grid — scanned
in ascending index (= ascending price) order — that is unfilled and
satisfies the buy test (`price ≤ level.price`) or the sell test
(`price ≥ level.price`); it returns `none` exactly when no level
satisfies this.  Being `Option`-valued, at most one level is returned per
call even when the price has crossed several levels. -/
theorem findTriggeredLevel_spec (p : ℚ) (g : List GridLevel) :
    (∀ l, findTriggeredLevel p g = some l →
      levelTriggered p l = true ∧
      ∃ g1 g2, g = g1 ++ l :: g2 ∧ ∀ l2 ∈ g1, levelTriggered p l2 = false) ∧
    (findTriggeredLevel p g = none ↔ ∀ l ∈ g, levelTriggered p l = false) ∧
    (∀ l, levelTriggered p l = true ↔
      l.filled = false ∧
        ((l.side = Side.buy ∧ p ≤ l.price) ∨
         (l.side = Side.sell ∧ l.price ≤ p))) := by
  refine ⟨?_, ?_, ?_⟩
  · intro l
    induction g with
    | nil => intro h; exact absurd h (by simp [findTriggeredLevel])
    | cons x xs ih =>
      intro h
      by_cases hx : levelTriggered p x = true
      · rw [findTriggeredLevel, if_pos hx] at h
        cases h
        exact ⟨hx, [], xs, rfl, by simp⟩
      · rw [findTriggeredLevel, if_neg hx] at h
        rcases ih h with ⟨hl, g1, g2, hsplit, hprefix⟩
        refine ⟨hl, x :: g1, g2, by rw [hsplit, List.cons_append], ?_⟩
        intro l2 hl2
        rcases List.mem_cons.mp hl2 with h2 | h2
        · rw [h2]
          cases hlt : levelTriggered p x with
          | false => rfl
          | true => exact absurd hlt hx
        · exact hprefix l2 h2
  · induction g with
    | nil => simp [findTriggeredLevel]
    | cons x xs ih =>
      by_cases hx : levelTriggered p x = true
      · rw [findTriggeredLevel, if_pos hx]
        simp only [List.mem_cons]
        constructor
        · intro h; cases h
        · intro h
          exact absurd hx (by rw [h x (Or.inl rfl)]; simp)
      · rw [findTriggeredLevel, if_neg hx]
        rw [ih]
        simp only [List.mem_cons]
        constructor
        · intro h l hl
          rcases hl with h2 | h2
          · rw [h2]
            cases hlt : levelTriggered p x
            · rfl
            · exact absurd hlt hx
          · exact h l h2
        · intro h l hl
          exact h l (Or.inr hl)
  · intro l
    unfold levelTriggered
    by_cases hf : l.filled
    · simp [hf]
    · by_cases hb : l.side = Side.buy ∧ p ≤ l.price
      · simp [hf, hb]
      · by_cases hs : l.side = Side.sell ∧ l.price ≤ p
        · simp [hf, hb, hs]
        · simp [hf, hb, hs, Bool.not_eq_true _ ▸ hf]

/-! ## C1: scheduler decision -/

/-- The decision flag, at the level of the code's own tests: significant
change, or — with a bot holding a non-empty grid — breakout at a positive
last price, buy-side exhaustion or sell-side exhaustion. -/
lemma fetchAndProcessSR_recalc_iff (prev : Option ℚ) (sr : SRSignal) (th : ℚ)
    (bot : Option BotView) (cb : Bool) :
    (fetchAndProcessSR prev sr th bot cb).shouldRecalculate = true ↔
      ((checkSignificantChange prev sr.midpoint th).hasChanged = true ∨
       ∃ b, bot = some b ∧ 0 < b.grid.length ∧
         ((0 < b.lastETHPrice ∧ isPriceOutsideGrid b.lastETHPrice b.grid = true) ∨
          areAllSideFilled b.grid Side.buy = true ∨
          areAllSideFilled b.grid Side.sell = true)) := by
  rcases bot with _ | b
  · by_cases h1 : (checkSignificantChange prev sr.midpoint th).hasChanged = true <;>
      simp [fetchAndProcessSR, h1]
  · by_cases hlen : 0 < b.grid.length
    · by_cases h1 : (checkSignificantChange prev sr.midpoint th).hasChanged = true <;>
        by_cases h2 : (0 < b.lastETHPrice ∧ isPriceOutsideGrid b.lastETHPrice b.grid = true) <;>
        by_cases h3 : areAllSideFilled b.grid Side.buy = true <;>
        by_cases h4 : areAllSideFilled b.grid Side.sell = true <;>
        simp [fetchAndProcessSR, h1, h2, h3, h4, hlen]
    · by_cases h1 : (checkSignificantChange prev sr.midpoint th).hasChanged = true <;>
        simp [fetchAndProcessSR, h1, hlen]

/-- Membership of the signal-drift reason. -/
lemma fetchAndProcessSR_mem_srChanged (prev : Option ℚ) (sr : SRSignal) (th : ℚ)
    (bot : Option BotView) (cb : Bool) :
    RecalcReason.srChanged ∈ (fetchAndProcessSR prev sr th bot cb).reasons ↔
      (checkSignificantChange prev sr.midpoint th).hasChanged = true := by
  rcases bot with _ | b
  · by_cases h1 : (checkSignificantChange prev sr.midpoint th).hasChanged = true <;>
      simp [fetchAndProcessSR, h1]
  · by_cases hlen : 0 < b.grid.length
    · by_cases h1 : (checkSignificantChange prev sr.midpoint th).hasChanged = true <;>
        by_cases h2 : (0 < b.lastETHPrice ∧ isPriceOutsideGrid b.lastETHPrice b.grid = true) <;>
        by_cases h3 : areAllSideFilled b.grid Side.buy = true <;>
        by_cases h4 : areAllSideFilled b.grid Side.sell = true <;>
        simp [fetchAndProcessSR, h1, h2, h3, h4, hlen]
    · by_cases h1 : (checkSignificantChange prev sr.midpoint th).hasChanged = true <;>
        simp [fetchAndProcessSR, h1, hlen]

/-- Membership of the breakout reason. -/
lemma fetchAndProcessSR_mem_outside (prev : Option ℚ) (sr : SRSignal) (th : ℚ)
    (bot : Option BotView) (cb : Bool) :
    RecalcReason.priceOutsideGrid ∈ (fetchAndProcessSR prev sr th bot cb).reasons ↔
      (∃ b, bot = some b ∧ 0 < b.grid.length ∧ 0 < b.lastETHPrice ∧
        isPriceOutsideGrid b.lastETHPrice b.grid = true) := by
  rcases bot with _ | b
  · by_cases h1 : (checkSignificantChange prev sr.midpoint th).hasChanged = true <;>
      simp [fetchAndProcessSR, h1]
  · by_cases hlen : 0 < b.grid.length
    · by_cases h1 : (checkSignificantChange prev sr.midpoint th).hasChanged = true <;>
        by_cases h2 : (0 < b.lastETHPrice ∧ isPriceOutsideGrid b.lastETHPrice b.grid = true) <;>
        by_cases h3 : areAllSideFilled b.grid Side.buy = true <;>
        by_cases h4 : areAllSideFilled b.grid Side.sell = true <;>
        simp [fetchAndProcessSR, h1, h2, h3, h4, hlen]
    · by_cases h1 : (checkSignificantChange prev sr.midpoint th).hasChanged = true <;>
        simp [fetchAndProcessSR, h1, hlen]

/-- Membership of the buy-exhaustion reason. -/
lemma fetchAndProcessSR_mem_allBuys (prev : Option ℚ) (sr : SRSignal) (th : ℚ)
    (bot : Option BotView) (cb : Bool) :
    RecalcReason.allBuysFilled ∈ (fetchAndProcessSR prev sr th bot cb).reasons ↔
      (∃ b, bot = some b ∧ 0 < b.grid.length ∧
        areAllSideFilled b.grid Side.buy = true) := by
  rcases bot with _ | b
  · by_cases h1 : (checkSignificantChange prev sr.midpoint th).hasChanged = true <;>
      simp [fetchAndProcessSR, h1]
  · by_cases hlen : 0 < b.grid.length
    · by_cases h1 : (checkSignificantChange prev sr.midpoint th).hasChanged = true <;>
        by_cases h2 : (0 < b.lastETHPrice ∧ isPriceOutsideGrid b.lastETHPrice b.grid = true) <;>
        by_cases h3 : areAllSideFilled b.grid Side.buy = true <;>
        by_cases h4 : areAllSideFilled b.grid Side.sell = true <;>
        simp [fetchAndProcessSR, h1, h2, h3, h4, hlen]
    · by_cases h1 : (checkSignificantChange prev sr.midpoint th).hasChanged = true <;>
        simp [fetchAndProcessSR, h1, hlen]

/-- Membership of the sell-exhaustion reason. -/
lemma fetchAndProcessSR_mem_allSells (prev : Option ℚ) (sr : SRSignal) (th : ℚ)
    (bot : Option BotView) (cb : Bool) :
    RecalcReason.allSellsFilled ∈ (fetchAndProcessSR prev sr th bot cb).reasons ↔
      (∃ b, bot = some b ∧ 0 < b.grid.length ∧
        areAllSideFilled b.grid Side.sell = true) := by
  rcases bot with _ | b
  · by_cases h1 : (checkSignificantChange prev sr.midpoint th).hasChanged = true <;>
      simp [fetchAndProcessSR, h1]
  · by_cases hlen : 0 < b.grid.length
    · by_cases h1 : (checkSignificantChange prev sr.midpoint th).hasChanged = true <;>
        by_cases h2 : (0 < b.lastETHPrice ∧ isPriceOutsideGrid b.lastETHPrice b.grid = true) <;>
        by_cases h3 : areAllSideFilled b.grid Side.buy = true <;>
        by_cases h4 : areAllSideFilled b.grid Side.sell = true <;>
        simp [fetchAndProcessSR, h1, h2, h3, h4, hlen]
    · by_cases h1 : (checkSignificantChange prev sr.midpoint th).hasChanged = true <;>
        simp [fetchAndProcessSR, h1, hlen]

/-- The reasons list is empty exactly when no condition fired. -/
lemma fetchAndProcessSR_reasons_nil (prev : Option ℚ) (sr : SRSignal) (th : ℚ)
    (bot : Option BotView) (cb : Bool) :
    (fetchAndProcessSR prev sr th bot cb).reasons = [] ↔
      (fetchAndProcessSR prev sr th bot cb).shouldRecalculate = false := by
  rcases bot with _ | b
  · by_cases h1 : (checkSignificantChange prev sr.midpoint th).hasChanged = true <;>
      simp [fetchAndProcessSR, h1]
  · by_cases hlen : 0 < b.grid.length
    · by_cases h1 : (checkSignificantChange prev sr.midpoint th).hasChanged = true <;>
        by_cases h2 : (0 < b.lastETHPrice ∧ isPriceOutsideGrid b.lastETHPrice b.grid = true) <;>
        by_cases h3 : areAllSideFilled b.grid Side.buy = true <;>
        by_cases h4 : areAllSideFilled b.grid Side.sell = true <;>
        simp [fetchAndProcessSR, h1, h2, h3, h4, hlen]
    · by_cases h1 : (checkSignificantChange prev sr.midpoint th).hasChanged = true <;>
        simp [fetchAndProcessSR, h1, hlen]

/-- The code's breakout test (with its gates) is the claim's C2. -/
lemma cond2_equiv (bot : Option BotView) :
    (∃ b, bot = some b ∧ 0 < b.grid.length ∧ 0 < b.lastETHPrice ∧
      isPriceOutsideGrid b.lastETHPrice b.grid = true) ↔
    (∃ b, bot = some b ∧ b.grid ≠ [] ∧ 0 < b.lastETHPrice ∧
      ((∀ l ∈ b.grid, b.lastETHPrice < l.price) ∨
       (∀ l ∈ b.grid, l.price < b.lastETHPrice))) := by
  rcases bot with _ | b
  · simp
  · simp only [Option.some.injEq, exists_eq_left']
    by_cases hg : b.grid = []
    · simp [hg]
    · rw [isPriceOutsideGrid_iff hg]
      simp [List.length_pos, hg]

/-- The code's one-side exhaustion test (with its gate) is the claim's
side clause of C3. -/
lemma cond3_equiv (bot : Option BotView) (side : Side) :
    (∃ b, bot = some b ∧ 0 < b.grid.length ∧
      areAllSideFilled b.grid side = true) ↔
    (∃ b, bot = some b ∧ (∃ l ∈ b.grid, l.side = side) ∧
      ∀ l ∈ b.grid, l.side = side → l.filled = true) := by
  rcases bot with _ | b
  · simp
  · simp only [Option.some.injEq, exists_eq_left']
    rw [areAllSideFilled_iff]
    constructor
    · rintro ⟨-, h⟩
      exact h
    · rintro ⟨⟨l, hl, hside⟩, hall⟩
      exact ⟨List.length_pos.mpr (List.ne_nil_of_mem hl), ⟨l, hl, hside⟩, hall⟩

/-- C1: in a scheduler firing whose S/R fetch succeeded (with the rebuild
callback configured), the engine's rebuild is invoked exactly when one of
the three conditions holds — C1 significant midpoint change (no previous
record, or change at least the threshold), C2 breakout (bot present,
non-empty grid, positive last price, price strictly outside the grid's
price range), C3 exhaustion (bot present and all buy levels filled, or all
sell levels filled; each side needs at least one level) — and every
condition that fired contributes its reason to the logged list; the flag
persisted with the record equals the decision, and when no condition holds
nothing is invoked and the reasons list is empty (the Ladder is only ever
modified through the invoked rebuild). -/
theorem fetchAndProcessSR_spec (prev : Option ℚ) (sr : SRSignal) (th : ℚ)
    (bot : Option BotView) :
    ((fetchAndProcessSR prev sr th bot true).rebuildInvoked = true ↔
      ((prev = none ∨ ∃ pm, prev = some pm ∧ th ≤ |(sr.midpoint - pm) / pm * 100|) ∨
       (∃ b, bot = some b ∧ b.grid ≠ [] ∧ 0 < b.lastETHPrice ∧
         ((∀ l ∈ b.grid, b.lastETHPrice < l.price) ∨
          (∀ l ∈ b.grid, l.price < b.lastETHPrice))) ∨
       (∃ b, bot = some b ∧ (∃ l ∈ b.grid, l.side = Side.buy) ∧
         ∀ l ∈ b.grid, l.side = Side.buy → l.filled = true) ∨
       (∃ b, bot = some b ∧ (∃ l ∈ b.grid, l.side = Side.sell) ∧
         ∀ l ∈ b.grid, l.side = Side.sell → l.filled = true))) ∧
    (RecalcReason.srChanged ∈ (fetchAndProcessSR prev sr th bot true).reasons ↔
      (prev = none ∨ ∃ pm, prev = some pm ∧ th ≤ |(sr.midpoint - pm) / pm * 100|)) ∧
    (RecalcReason.priceOutsideGrid ∈ (fetchAndProcessSR prev sr th bot true).reasons ↔
      (∃ b, bot = some b ∧ b.grid ≠ [] ∧ 0 < b.lastETHPrice ∧
        ((∀ l ∈ b.grid, b.lastETHPrice < l.price) ∨
         (∀ l ∈ b.grid, l.price < b.lastETHPrice)))) ∧
    (RecalcReason.allBuysFilled ∈ (fetchAndProcessSR prev sr th bot true).reasons ↔
      (∃ b, bot = some b ∧ (∃ l ∈ b.grid, l.side = Side.buy) ∧
        ∀ l ∈ b.grid, l.side = Side.buy → l.filled = true)) ∧
    (RecalcReason.allSellsFilled ∈ (fetchAndProcessSR prev sr th bot true).reasons ↔
      (∃ b, bot = some b ∧ (∃ l ∈ b.grid, l.side = Side.sell) ∧
        ∀ l ∈ b.grid, l.side = Side.sell → l.filled = true)) ∧
    ((fetchAndProcessSR prev sr th bot true).rebuildInvoked =
      (fetchAndProcessSR prev sr th bot true).shouldRecalculate) ∧
    ((fetchAndProcessSR prev sr th bot true).recordedGridRecalculated =
      (fetchAndProcessSR prev sr th bot true).shouldRecalculate) ∧
    ((fetchAndProcessSR prev sr th bot true).reasons = [] ↔
      (fetchAndProcessSR prev sr th bot true).shouldRecalculate = false) := by
  have hreb : (fetchAndProcessSR prev sr th bot true).rebuildInvoked =
      (fetchAndProcessSR prev sr th bot true).shouldRecalculate := by
    simp [fetchAndProcessSR]
  have hrec : (fetchAndProcessSR prev sr th bot true).recordedGridRecalculated =
      (fetchAndProcessSR prev sr th bot true).shouldRecalculate := rfl
  refine ⟨?_, ?_, ?_, ?_, ?_, hreb, hrec, fetchAndProcessSR_reasons_nil prev sr th bot true⟩
  · rw [hreb, fetchAndProcessSR_recalc_iff, hasChanged_iff]
    rw [show (∃ b, bot = some b ∧ 0 < b.grid.length ∧
        ((0 < b.lastETHPrice ∧ isPriceOutsideGrid b.lastETHPrice b.grid = true) ∨
         areAllSideFilled b.grid Side.buy = true ∨
         areAllSideFilled b.grid Side.sell = true)) ↔
        ((∃ b, bot = some b ∧ 0 < b.grid.length ∧ 0 < b.lastETHPrice ∧
           isPriceOutsideGrid b.lastETHPrice b.grid = true) ∨
         (∃ b, bot = some b ∧ 0 < b.grid.length ∧ areAllSideFilled b.grid Side.buy = true) ∨
         (∃ b, bot = some b ∧ 0 < b.grid.length ∧ areAllSideFilled b.grid Side.sell = true))
      from by
        constructor
        · rintro ⟨b, hb, hlen, h | h | h⟩
          · exact Or.inl ⟨b, hb, hlen, h.1, h.2⟩
          · exact Or.inr (Or.inl ⟨b, hb, hlen, h⟩)
          · exact Or.inr (Or.inr ⟨b, hb, hlen, h⟩)
        · rintro (⟨b, hb, hlen, hp, ho⟩ | ⟨b, hb, hlen, h⟩ | ⟨b, hb, hlen, h⟩)
          · exact ⟨b, hb, hlen, Or.inl ⟨hp, ho⟩⟩
          · exact ⟨b, hb, hlen, Or.inr (Or.inl h)⟩
          · exact ⟨b, hb, hlen, Or.inr (Or.inr h)⟩]
    rw [cond2_equiv, cond3_equiv, cond3_equiv]
  · rw [fetchAndProcessSR_mem_srChanged, hasChanged_iff]
  · rw [fetchAndProcessSR_mem_outside, cond2_equiv]
  · rw [fetchAndProcessSR_mem_allBuys, cond3_equiv]
  · rw [fetchAndProcessSR_mem_allSells, cond3_equiv]

/-! ## C4: grid builder -/

/-- The loop offsets are exactly the integers of
`[-⌊N/2⌋, ⌊N/2⌋]`, without `0` when `N` is even. -/
lemma mem_gridOffsets (N : ℕ) (i : ℤ) :
    i ∈ gridOffsets N ↔
      -((N / 2 : ℕ) : ℤ) ≤ i ∧ i ≤ ((N / 2 : ℕ) : ℤ) ∧ ¬(i = 0 ∧ N % 2 = 0) := by
  constructor
  · intro h
    rcases List.mem_filter.mp h with ⟨hmem, hcond⟩
    rcases List.mem_map.mp hmem with ⟨k, hk, rfl⟩
    rw [List.mem_range] at hk
    refine ⟨by omega, by omega, ?_⟩
    rintro ⟨h0, he⟩
    rw [h0] at hcond
    simp [he] at hcond
  · rintro ⟨h1, h2, hcond⟩
    refine List.mem_filter.mpr ⟨List.mem_map.mpr
      ⟨(i + ((N / 2 : ℕ) : ℤ)).toNat, List.mem_range.mpr (by omega), by omega⟩, ?_⟩
    simp only [Bool.not_eq_true', Bool.and_eq_false_iff, beq_eq_false_iff_ne, ne_eq]
    by_cases h0 : i = 0
    · right
      intro he
      exact hcond ⟨h0, by omega⟩
    · left
      exact h0

lemma gridOffsets_pairwise (N : ℕ) : (gridOffsets N).Pairwise (· < ·) := by
  unfold gridOffsets
  apply List.Pairwise.filter
  rw [List.pairwise_map]
  exact (List.pairwise_lt_range _).imp (fun h => by omega)

lemma one_lt_spacingFactor {s : ℚ} (hs : 0 < s) : 1 < 1 + s / 100 := by
  have : 0 < s / 100 := by positivity
  linarith

/-- The raw (pre-sort) levels carry exactly the offset prices, in offset
order. -/
lemma rawGridLevels_map_price (c s a : ℚ) (N : ℕ) :
    (rawGridLevels c s a N).map (·.price) =
      (gridOffsets N).map (fun (i : ℤ) => c * HPow.hPow (1 + s / 100 : ℚ) i) := by
  unfold rawGridLevels
  rw [List.map_map]
  conv_rhs => rw [← List.enum_map_snd (gridOffsets N), List.map_map]
  rfl

/-- With a positive center and spacing the raw levels are already strictly
ascending in price, so the source's sort is the identity. -/
lemma rawGridLevels_pairwise (c s a : ℚ) (N : ℕ) (hc : 0 < c) (hs : 0 < s) :
    (rawGridLevels c s a N).Pairwise (fun x y => x.price < y.price) := by
  have hp : ((rawGridLevels c s a N).map (·.price)).Pairwise (· < ·) := by
    rw [rawGridLevels_map_price, List.pairwise_map]
    refine (gridOffsets_pairwise N).imp ?_
    intro i j hij
    exact mul_lt_mul_of_pos_left
      (zpow_lt_zpow_right₀ (one_lt_spacingFactor hs) hij) hc
  exact List.pairwise_map.mp hp

/-- On valid configuration the builder succeeds and returns the re-indexed
raw levels (the sort is the identity on the already-sorted raw list). -/
lemma calculateGridLevels_eq_ok (c s a : ℚ) (N : ℕ)
    (hc : 0 < c) (hN : 2 ≤ N) (hs : 0 < s) (ha : 0 < a) :
    calculateGridLevels c N s a =
      Except.ok (((rawGridLevels c s a N).enum).map
        (fun p : ℕ × GridLevel => { p.2 with index := p.1 })) := by
  have hsorted := rawGridLevels_pairwise c s a N hc hs
  unfold calculateGridLevels
  rw [if_neg (not_le.mpr hc), if_neg (by omega : ¬ N < 2), if_neg (not_le.mpr hs),
    if_neg (not_le.mpr ha)]
  rw [List.mergeSort_of_sorted (hsorted.imp (fun h => by
    simp only [decide_eq_true_eq]; exact le_of_lt h))]

/-- Every level the builder returns stems from one loop offset, which
determines its price, side, quantity and fill flag. -/
lemma mem_calculateGridLevels (c s a : ℚ) (N : ℕ)
    (hc : 0 < c) (hN : 2 ≤ N) (hs : 0 < s) (ha : 0 < a)
    {g : List GridLevel} (hg : calculateGridLevels c N s a = Except.ok g)
    {l : GridLevel} (hl : l ∈ g) :
    ∃ i ∈ gridOffsets N, l.price = c * HPow.hPow (1 + s / 100 : ℚ) i ∧
      l.side = (if i < 0 then Side.buy else Side.sell) ∧
      l.quantity = a / l.price ∧ l.filled = false := by
  rw [calculateGridLevels_eq_ok c s a N hc hN hs ha] at hg
  cases hg
  rcases List.mem_map.mp hl with ⟨⟨k, lvl⟩, hk, rfl⟩
  have hlvl : lvl ∈ rawGridLevels c s a N := by
    have := List.mem_map_of_mem Prod.snd hk
    rwa [List.enum_map_snd] at this
  unfold rawGridLevels at hlvl
  rcases List.mem_map.mp hlvl with ⟨⟨k2, i⟩, hk2, rfl⟩
  have hi : i ∈ gridOffsets N := by
    have := List.mem_map_of_mem Prod.snd hk2
    rwa [List.enum_map_snd] at this
  exact ⟨i, hi, rfl, rfl, rfl, rfl⟩

/-- C4 (amended): for valid inputs the builder returns the levels at
prices `centerPrice * (1 + spacing/100)^i` over the loop offsets
(`-⌊N/2⌋..⌊N/2⌋`, skipping `0` for even `N`), sorted strictly ascending
in price and re-indexed `0..k-1`, each with quantity
`amountPerGrid/price` and unfilled; a level is a Buy exactly when its
price is strictly below the center and a Sell exactly when its price is
at or above the center — strictly above for even `N`, while for odd `N`
the center level itself is a Sell at exactly the center price. -/
theorem calculateGridLevels_spec (c s a : ℚ) (N : ℕ)
    (hc : 0 < c) (hN : 2 ≤ N) (hs : 0 < s) (ha : 0 < a) :
    ∃ g, calculateGridLevels c N s a = Except.ok g ∧
      g.map (·.price) =
        (gridOffsets N).map (fun (i : ℤ) => c * HPow.hPow (1 + s / 100 : ℚ) i) ∧
      (∀ i : ℤ, i ∈ gridOffsets N ↔
        -((N / 2 : ℕ) : ℤ) ≤ i ∧ i ≤ ((N / 2 : ℕ) : ℤ) ∧ ¬(i = 0 ∧ N % 2 = 0)) ∧
      g.map (·.index) = List.range g.length ∧
      g.Pairwise (fun x y => x.price < y.price) ∧
      (∀ l ∈ g, l.quantity = a / l.price ∧ l.filled = false) ∧
      (∀ l ∈ g, l.side = Side.buy ↔ l.price < c) ∧
      (∀ l ∈ g, l.side = Side.sell ↔ c ≤ l.price) ∧
      (N % 2 = 0 → ∀ l ∈ g, l.side = Side.sell → c < l.price) := by
  have hg := calculateGridLevels_eq_ok c s a N hc hN hs ha
  refine ⟨_, hg, ?_, mem_gridOffsets N, ?_, ?_, ?_, ?_, ?_, ?_⟩
  · rw [List.map_map]
    have h1 : ((rawGridLevels c s a N).enum).map
        ((fun l : GridLevel => l.price) ∘ (fun p : ℕ × GridLevel => { p.2 with index := p.1 })) =
        ((rawGridLevels c s a N).enum).map ((fun l : GridLevel => l.price) ∘ Prod.snd) := rfl
    rw [h1, ← List.map_map, List.enum_map_snd, rawGridLevels_map_price]
  · rw [List.map_map]
    have h1 : ((rawGridLevels c s a N).enum).map
        ((fun l : GridLevel => l.index) ∘ (fun p : ℕ × GridLevel => { p.2 with index := p.1 })) =
        ((rawGridLevels c s a N).enum).map Prod.fst := rfl
    rw [h1, List.enum_map_fst, List.length_map, List.enum_length]
  · have hp : ((((rawGridLevels c s a N).enum).map
        (fun p : ℕ × GridLevel => { p.2 with index := p.1 })).map (·.price)).Pairwise
        (· < ·) := by
      rw [List.map_map]
      have h1 : ((rawGridLevels c s a N).enum).map
          ((fun l : GridLevel => l.price) ∘ (fun p : ℕ × GridLevel => { p.2 with index := p.1 })) =
          ((rawGridLevels c s a N).enum).map ((fun l : GridLevel => l.price) ∘ Prod.snd) := rfl
      rw [h1, ← List.map_map, List.enum_map_snd, rawGridLevels_map_price,
        List.pairwise_map]
      refine (gridOffsets_pairwise N).imp ?_
      intro i j hij
      exact mul_lt_mul_of_pos_left
        (zpow_lt_zpow_right₀ (one_lt_spacingFactor hs) hij) hc
    exact List.pairwise_map.mp hp
  · intro l hl
    rcases mem_calculateGridLevels c s a N hc hN hs ha hg hl with ⟨i, -, -, -, hq, hf⟩
    exact ⟨hq, hf⟩
  · intro l hl
    rcases mem_calculateGridLevels c s a N hc hN hs ha hg hl with ⟨i, -, hp, hside, -, -⟩
    have hsm : StrictMono (fun n : ℤ => HPow.hPow (1 + s / 100 : ℚ) n) :=
      zpow_right_strictMono₀ (one_lt_spacingFactor hs)
    rw [hside, hp]
    by_cases hi : i < 0
    · rw [if_pos hi]
      simp only [true_iff]
      have : HPow.hPow (1 + s / 100 : ℚ) i < HPow.hPow (1 + s / 100 : ℚ) (0 : ℤ) :=
        hsm hi
      rw [zpow_zero] at this
      calc c * HPow.hPow (1 + s / 100 : ℚ) i < c * 1 :=
            mul_lt_mul_of_pos_left this hc
        _ = c := mul_one c
    · rw [if_neg hi]
      have h0i : (0 : ℤ) ≤ i := le_of_not_lt hi
      have : HPow.hPow (1 + s / 100 : ℚ) (0 : ℤ) ≤ HPow.hPow (1 + s / 100 : ℚ) i :=
        hsm.le_iff_le.mpr h0i
      rw [zpow_zero] at this
      have hge : c ≤ c * HPow.hPow (1 + s / 100 : ℚ) i := by
        calc c = c * 1 := (mul_one c).symm
          _ ≤ c * HPow.hPow (1 + s / 100 : ℚ) i :=
            mul_le_mul_of_nonneg_left this (le_of_lt hc)
      constructor
      · intro hcontra
        cases hcontra
      · intro hlt
        exact absurd hge (not_le.mpr hlt)
  · intro l hl
    rcases mem_calculateGridLevels c s a N hc hN hs ha hg hl with ⟨i, -, hp, hside, -, -⟩
    have hsm : StrictMono (fun n : ℤ => HPow.hPow (1 + s / 100 : ℚ) n) :=
      zpow_right_strictMono₀ (one_lt_spacingFactor hs)
    rw [hside, hp]
    by_cases hi : i < 0
    · rw [if_pos hi]
      have : HPow.hPow (1 + s / 100 : ℚ) i < HPow.hPow (1 + s / 100 : ℚ) (0 : ℤ) :=
        hsm hi
      rw [zpow_zero] at this
      have hlt : c * HPow.hPow (1 + s / 100 : ℚ) i < c := by
        calc c * HPow.hPow (1 + s / 100 : ℚ) i < c * 1 :=
              mul_lt_mul_of_pos_left this hc
          _ = c := mul_one c
      constructor
      · intro hcontra
        cases hcontra
      · intro hle
        exact absurd hle (not_le.mpr hlt)
    · rw [if_neg hi]
      simp only [true_iff]
      have h0i : (0 : ℤ) ≤ i := le_of_not_lt hi
      have : HPow.hPow (1 + s / 100 : ℚ) (0 : ℤ) ≤ HPow.hPow (1 + s / 100 : ℚ) i :=
        hsm.le_iff_le.mpr h0i
      rw [zpow_zero] at this
      calc c = c * 1 := (mul_one c).symm
        _ ≤ c * HPow.hPow (1 + s / 100 : ℚ) i :=
          mul_le_mul_of_nonneg_left this (le_of_lt hc)
  · intro heven l hl
    rcases mem_calculateGridLevels c s a N hc hN hs ha hg hl with ⟨i, hioff, hp, hside, -, -⟩
    intro hsell
    have hsm : StrictMono (fun n : ℤ => HPow.hPow (1 + s / 100 : ℚ) n) :=
      zpow_right_strictMono₀ (one_lt_spacingFactor hs)
    have hi0 : ¬ i < 0 := by
      intro hi
      rw [hside, if_pos hi] at hsell
      cases hsell
    have hine : i ≠ 0 := by
      rcases (mem_gridOffsets N i).mp hioff with ⟨-, -, hcond⟩
      intro h0
      exact hcond ⟨h0, heven⟩
    have hipos : (0 : ℤ) < i := by omega
    have : HPow.hPow (1 + s / 100 : ℚ) (0 : ℤ) < HPow.hPow (1 + s / 100 : ℚ) i :=
      hsm hipos
    rw [zpow_zero] at this
    rw [hp]
    calc c = c * 1 := (mul_one c).symm
      _ < c * HPow.hPow (1 + s / 100 : ℚ) i := mul_lt_mul_of_pos_left this hc

/-- C4 witness: the general statement at center 100, 2 levels, 2%
spacing, 100 per level. -/
theorem calculateGridLevels_spec_witness :
    ∃ g, calculateGridLevels 100 2 2 100 = Except.ok g ∧
      g.map (·.price) =
        (gridOffsets 2).map (fun (i : ℤ) => 100 * HPow.hPow (1 + 2 / 100 : ℚ) i) ∧
      (∀ i : ℤ, i ∈ gridOffsets 2 ↔
        -((2 / 2 : ℕ) : ℤ) ≤ i ∧ i ≤ ((2 / 2 : ℕ) : ℤ) ∧ ¬(i = 0 ∧ 2 % 2 = 0)) ∧
      g.map (·.index) = List.range g.length ∧
      g.Pairwise (fun x y => x.price < y.price) ∧
      (∀ l ∈ g, l.quantity = 100 / l.price ∧ l.filled = false) ∧
      (∀ l ∈ g, l.side = Side.buy ↔ l.price < 100) ∧
      (∀ l ∈ g, l.side = Side.sell ↔ 100 ≤ l.price) ∧
      (2 % 2 = 0 → ∀ l ∈ g, l.side = Side.sell → 100 < l.price) :=
  calculateGridLevels_spec 100 2 100 2 (by norm_num) (by norm_num) (by norm_num)
    (by norm_num)

/-- C4 counterexample: at center 100 with 3 levels (odd), the builder
returns a Sell level whose price is exactly the center, not strictly
above it — refuting the claim's clause that every Sell level's price is
strictly above the center for all valid inputs. -/
theorem calculateGridLevels_center_sell :
    ∃ g, calculateGridLevels 100 3 2 100 = Except.ok g ∧
      ∃ l ∈ g, l.side = Side.sell ∧ ¬ ((100 : ℚ) < l.price) := by
  have hg := calculateGridLevels_eq_ok 100 2 100 3 (by norm_num) (by norm_num)
    (by norm_num) (by norm_num)
  refine ⟨_, hg, ?_⟩
  have hoff : gridOffsets 3 = [-1, 0, 1] := by decide
  refine ⟨⟨1, 100 * HPow.hPow (1 + 2 / 100 : ℚ) (0 : ℤ), Side.sell,
      100 / (100 * HPow.hPow (1 + 2 / 100 : ℚ) (0 : ℤ)), false, none, none⟩,
    ?_, rfl, ?_⟩
  · simp [rawGridLevels, hoff, List.enum]
  · rw [zpow_zero, mul_one]
    exact lt_irrefl 100

/-! ## C2: initializeGrid / rebuild center selection -/

/-- C2: on a rebuild with signal `sr` and a valid current price, the
engine's base price becomes the explicitly configured (non-zero) base
price when one is set and `sr.midpoint` otherwise — configuration wins
over the signal — the grid is replaced by the Grid Builder's output at
that center, and the state is persisted (save counter bumped). -/
theorem initializeGrid_spec (bot : TrahnGridTradingBot) (sr : SRSignal) (p : ℚ)
    (hp : 0 < p)
    (hcenter : 0 < if bot.basePrice ≠ 0 then bot.basePrice else sr.midpoint)
    (hN : 2 ≤ bot.gridLevels) (hs : 0 < bot.gridSpacingPercent)
    (ha : 0 < bot.amountPerGrid) :
    ∃ g, calculateGridLevels (if bot.basePrice ≠ 0 then bot.basePrice else sr.midpoint)
        bot.gridLevels bot.gridSpacingPercent bot.amountPerGrid = Except.ok g ∧
      TrahnGridTradingBot.initializeGrid bot sr p =
        ({ bot with
            basePrice := if bot.basePrice ≠ 0 then bot.basePrice else sr.midpoint,
            grid := g,
            saves := bot.saves + 1 }, none) ∧
      (bot.basePrice ≠ 0 →
        (TrahnGridTradingBot.initializeGrid bot sr p).1.basePrice = bot.basePrice) ∧
      (bot.basePrice = 0 →
        (TrahnGridTradingBot.initializeGrid bot sr p).1.basePrice = sr.midpoint) := by
  have hok := calculateGridLevels_eq_ok
    (if bot.basePrice ≠ 0 then bot.basePrice else sr.midpoint)
    bot.gridSpacingPercent bot.amountPerGrid bot.gridLevels hcenter hN hs ha
  have hrun : TrahnGridTradingBot.initializeGrid bot sr p =
      ({ bot with
          basePrice := if bot.basePrice ≠ 0 then bot.basePrice else sr.midpoint,
          grid := (((rawGridLevels (if bot.basePrice ≠ 0 then bot.basePrice else sr.midpoint)
            bot.gridSpacingPercent bot.amountPerGrid bot.gridLevels).enum).map
              (fun q : ℕ × GridLevel => { q.2 with index := q.1 })),
          saves := bot.saves + 1 }, none) := by
    unfold TrahnGridTradingBot.initializeGrid
    rw [if_neg (not_le.mpr hp), hok]
    rfl
  refine ⟨_, hok, hrun, ?_, ?_⟩
  · intro hbp
    rw [hrun]
    simp [hbp]
  · intro hbp
    rw [hrun]
    simp [hbp]

/-- C2 witness: a bot with no configured base price (auto-detect) rebuilt
from a signal with midpoint 3000 at current price 3000. -/
theorem initializeGrid_spec_witness :
    ∃ g, calculateGridLevels
        (if (TrahnGridTradingBot.mk true 2 2 100 0 [] 0 0 0
            (PaperWallet.mk 1 1000 1 1000 [] 0 0) 0).basePrice ≠ 0 then
          (TrahnGridTradingBot.mk true 2 2 100 0 [] 0 0 0
            (PaperWallet.mk 1 1000 1 1000 [] 0 0) 0).basePrice
         else (SRSignal.mk 2700 3300 3000 none 14).midpoint)
        (TrahnGridTradingBot.mk true 2 2 100 0 [] 0 0 0
          (PaperWallet.mk 1 1000 1 1000 [] 0 0) 0).gridLevels
        (TrahnGridTradingBot.mk true 2 2 100 0 [] 0 0 0
          (PaperWallet.mk 1 1000 1 1000 [] 0 0) 0).gridSpacingPercent
        (TrahnGridTradingBot.mk true 2 2 100 0 [] 0 0 0
          (PaperWallet.mk 1 1000 1 1000 [] 0 0) 0).amountPerGrid = Except.ok g ∧
      TrahnGridTradingBot.initializeGrid
        (TrahnGridTradingBot.mk true 2 2 100 0 [] 0 0 0
          (PaperWallet.mk 1 1000 1 1000 [] 0 0) 0)
        (SRSignal.mk 2700 3300 3000 none 14) 3000 =
        ({ TrahnGridTradingBot.mk true 2 2 100 0 [] 0 0 0
            (PaperWallet.mk 1 1000 1 1000 [] 0 0) 0 with
            basePrice := if (TrahnGridTradingBot.mk true 2 2 100 0 [] 0 0 0
                (PaperWallet.mk 1 1000 1 1000 [] 0 0) 0).basePrice ≠ 0 then
              (TrahnGridTradingBot.mk true 2 2 100 0 [] 0 0 0
                (PaperWallet.mk 1 1000 1 1000 [] 0 0) 0).basePrice
             else (SRSignal.mk 2700 3300 3000 none 14).midpoint,
            grid := g,
            saves := (TrahnGridTradingBot.mk true 2 2 100 0 [] 0 0 0
              (PaperWallet.mk 1 1000 1 1000 [] 0 0) 0).saves + 1 }, none) ∧
      ((TrahnGridTradingBot.mk true 2 2 100 0 [] 0 0 0
          (PaperWallet.mk 1 1000 1 1000 [] 0 0) 0).basePrice ≠ 0 →
        (TrahnGridTradingBot.initializeGrid
          (TrahnGridTradingBot.mk true 2 2 100 0 [] 0 0 0
            (PaperWallet.mk 1 1000 1 1000 [] 0 0) 0)
          (SRSignal.mk 2700 3300 3000 none 14) 3000).1.basePrice =
          (TrahnGridTradingBot.mk true 2 2 100 0 [] 0 0 0
            (PaperWallet.mk 1 1000 1 1000 [] 0 0) 0).basePrice) ∧
      ((TrahnGridTradingBot.mk true 2 2 100 0 [] 0 0 0
          (PaperWallet.mk 1 1000 1 1000 [] 0 0) 0).basePrice = 0 →
        (TrahnGridTradingBot.initializeGrid
          (TrahnGridTradingBot.mk true 2 2 100 0 [] 0 0 0
            (PaperWallet.mk 1 1000 1 1000 [] 0 0) 0)
          (SRSignal.mk 2700 3300 3000 none 14) 3000).1.basePrice =
          (SRSignal.mk 2700 3300 3000 none 14).midpoint) :=
  initializeGrid_spec
    (TrahnGridTradingBot.mk true 2 2 100 0 [] 0 0 0
      (PaperWallet.mk 1 1000 1 1000 [] 0 0) 0)
    (SRSignal.mk 2700 3300 3000 none 14) 3000
    (by norm_num) (by norm_num) (by norm_num) (by norm_num) (by norm_num)

/-! ## C3: behaviour of a tick whose price fetch fails -/

/-- C3 (amended): on a tick whose price fetch fails, the engine reuses the
last known price; only when no last known price exists (it is still zero,
or otherwise non-positive) is the tick skipped with no trade and no
fill-state change — otherwise the tick proceeds exactly as if the fetch
had returned the last known price (which, within the sanity bounds, may
trigger and execute a trade at that stale price). -/
theorem tick_fetch_failure_spec (env : ExecEnv) (bot : TrahnGridTradingBot) :
    (TrahnGridTradingBot.fetchETHPrice bot none = (bot.lastETHPrice, bot)) ∧
    (bot.lastETHPrice ≤ 0 →
      TrahnGridTradingBot.tick env bot none =
        { bot with priceChecks := bot.priceChecks + 1 }) ∧
    (100 ≤ bot.lastETHPrice → bot.lastETHPrice ≤ 100000 →
      TrahnGridTradingBot.tick env bot none =
        TrahnGridTradingBot.tick env bot (some bot.lastETHPrice)) := by
  refine ⟨rfl, ?_, ?_⟩
  · intro h0
    unfold TrahnGridTradingBot.tick TrahnGridTradingBot.fetchETHPrice
    simp only []
    rw [if_pos h0]
  · intro h1 h2
    have hcond : ¬(bot.lastETHPrice < 100 ∨ 100000 < bot.lastETHPrice) := by
      rw [not_or]
      exact ⟨not_lt.mpr h1, not_lt.mpr h2⟩
    unfold TrahnGridTradingBot.tick TrahnGridTradingBot.fetchETHPrice
    simp only []
    rw [if_neg hcond]

/-- C3 witness: the amended statement at a concrete stalled bot (price
never fetched yet, so the tick is skipped). -/
theorem tick_fetch_failure_spec_witness :
    (TrahnGridTradingBot.fetchETHPrice
        (TrahnGridTradingBot.mk true 10 2 100 3000
          [GridLevel.mk 0 3000 Side.buy (3 / 100) false none none] 0 0 0
          (PaperWallet.mk 1 1000 1 1000 [] 0 0) 0) none =
      ((TrahnGridTradingBot.mk true 10 2 100 3000
          [GridLevel.mk 0 3000 Side.buy (3 / 100) false none none] 0 0 0
          (PaperWallet.mk 1 1000 1 1000 [] 0 0) 0).lastETHPrice,
        TrahnGridTradingBot.mk true 10 2 100 3000
          [GridLevel.mk 0 3000 Side.buy (3 / 100) false none none] 0 0 0
          (PaperWallet.mk 1 1000 1 1000 [] 0 0) 0)) ∧
    ((TrahnGridTradingBot.mk true 10 2 100 3000
        [GridLevel.mk 0 3000 Side.buy (3 / 100) false none none] 0 0 0
        (PaperWallet.mk 1 1000 1 1000 [] 0 0) 0).lastETHPrice ≤ 0 →
      TrahnGridTradingBot.tick (ExecEnv.mk 0 0 true 7 11)
        (TrahnGridTradingBot.mk true 10 2 100 3000
          [GridLevel.mk 0 3000 Side.buy (3 / 100) false none none] 0 0 0
          (PaperWallet.mk 1 1000 1 1000 [] 0 0) 0) none =
        { TrahnGridTradingBot.mk true 10 2 100 3000
            [GridLevel.mk 0 3000 Side.buy (3 / 100) false none none] 0 0 0
            (PaperWallet.mk 1 1000 1 1000 [] 0 0) 0 with
          priceChecks := (TrahnGridTradingBot.mk true 10 2 100 3000
            [GridLevel.mk 0 3000 Side.buy (3 / 100) false none none] 0 0 0
            (PaperWallet.mk 1 1000 1 1000 [] 0 0) 0).priceChecks + 1 }) ∧
    (100 ≤ (TrahnGridTradingBot.mk true 10 2 100 3000
        [GridLevel.mk 0 3000 Side.buy (3 / 100) false none none] 0 0 0
        (PaperWallet.mk 1 1000 1 1000 [] 0 0) 0).lastETHPrice →
      (TrahnGridTradingBot.mk true 10 2 100 3000
        [GridLevel.mk 0 3000 Side.buy (3 / 100) false none none] 0 0 0
        (PaperWallet.mk 1 1000 1 1000 [] 0 0) 0).lastETHPrice ≤ 100000 →
      TrahnGridTradingBot.tick (ExecEnv.mk 0 0 true 7 11)
        (TrahnGridTradingBot.mk true 10 2 100 3000
          [GridLevel.mk 0 3000 Side.buy (3 / 100) false none none] 0 0 0
          (PaperWallet.mk 1 1000 1 1000 [] 0 0) 0) none =
        TrahnGridTradingBot.tick (ExecEnv.mk 0 0 true 7 11)
          (TrahnGridTradingBot.mk true 10 2 100 3000
            [GridLevel.mk 0 3000 Side.buy (3 / 100) false none none] 0 0 0
            (PaperWallet.mk 1 1000 1 1000 [] 0 0) 0)
          (some (TrahnGridTradingBot.mk true 10 2 100 3000
            [GridLevel.mk 0 3000 Side.buy (3 / 100) false none none] 0 0 0
            (PaperWallet.mk 1 1000 1 1000 [] 0 0) 0).lastETHPrice)) :=
  tick_fetch_failure_spec (ExecEnv.mk 0 0 true 7 11)
    (TrahnGridTradingBot.mk true 10 2 100 3000
      [GridLevel.mk 0 3000 Side.buy (3 / 100) false none none] 0 0 0
      (PaperWallet.mk 1 1000 1 1000 [] 0 0) 0)

/-- C3 counterexample: with a last known price of 2900 and an unfilled buy
level at 3000, a tick whose price fetch fails does NOT skip: it executes
the buy at the stale price — the level's fill state changes and the trade
counter increments — refuting "skips the tick without executing any
trade". -/
theorem tick_fetch_failure_trades :
    (TrahnGridTradingBot.tick (ExecEnv.mk 0 0 true 7 11)
        (TrahnGridTradingBot.mk true 10 2 100 3000
          [GridLevel.mk 0 3000 Side.buy (3 / 100) false none none] 2900 0 0
          (PaperWallet.mk 1 1000 1 1000 [] 0 0) 0) none).tradesExecuted = 1 ∧
    ((TrahnGridTradingBot.tick (ExecEnv.mk 0 0 true 7 11)
        (TrahnGridTradingBot.mk true 10 2 100 3000
          [GridLevel.mk 0 3000 Side.buy (3 / 100) false none none] 2900 0 0
          (PaperWallet.mk 1 1000 1 1000 [] 0 0) 0) none).grid.map (·.filled) =
      [true]) ∧
    (TrahnGridTradingBot.mk true 10 2 100 3000
      [GridLevel.mk 0 3000 Side.buy (3 / 100) false none none] 2900 0 0
      (PaperWallet.mk 1 1000 1 1000 [] 0 0) 0).tradesExecuted = 0 ∧
    ((TrahnGridTradingBot.mk true 10 2 100 3000
        [GridLevel.mk 0 3000 Side.buy (3 / 100) false none none] 2900 0 0
        (PaperWallet.mk 1 1000 1 1000 [] 0 0) 0).grid.map (·.filled) = [false]) := by
  norm_num [TrahnGridTradingBot.tick, TrahnGridTradingBot.fetchETHPrice,
    findTriggeredPos, levelTriggered, TrahnGridTradingBot.executeTrade,
    TrahnGridTradingBot.executeBuy, PaperWallet.executeBuy, PaperWallet.deductGas,
    PaperWallet.recordTrade, PaperWallet.saveState, TrahnGridTradingBot.saveState,
    TrahnGridTradingBot.maybeCreateOppositeLevel, getOppositeLevelIndex]

/-! ## C5: opposite-level reset -/

/-- C5 (amended): after a fill at a Buy with index `i`, the level at
position `i + 1` is reset to unfilled — `filledAt` and the execution
reference cleared — exactly when it exists and was filled, and nothing
changes when `i + 1` is out of bounds; after a fill at a Sell with index
`i`, position `i - 1` is reset under the same conditions, so the only
Sell that resets nothing is one at index 0 (out of bounds below); in
particular the topmost Sell at index `k-1` does reset level `k-2`. -/
theorem maybeCreateOppositeLevel_spec (bot : TrahnGridTradingBot)
    (l : GridLevel) :
    (l.side = Side.buy → ∀ adj, bot.grid.get? (l.index + 1) = some adj →
      (adj.filled = true →
        TrahnGridTradingBot.maybeCreateOppositeLevel bot l =
          TrahnGridTradingBot.saveState
            { bot with
                grid :=
                  bot.grid.set (l.index + 1)
                    (GridLevel.mk adj.index adj.price adj.side adj.quantity
                      false none none) }) ∧
      (adj.filled = false →
        TrahnGridTradingBot.maybeCreateOppositeLevel bot l = bot)) ∧
    (l.side = Side.buy → bot.grid.length ≤ l.index + 1 →
      TrahnGridTradingBot.maybeCreateOppositeLevel bot l = bot) ∧
    (l.side = Side.sell → 1 ≤ l.index →
      ∀ adj, bot.grid.get? (l.index - 1) = some adj →
      (adj.filled = true →
        TrahnGridTradingBot.maybeCreateOppositeLevel bot l =
          TrahnGridTradingBot.saveState
            { bot with
                grid :=
                  bot.grid.set (l.index - 1)
                    (GridLevel.mk adj.index adj.price adj.side adj.quantity
                      false none none) }) ∧
      (adj.filled = false →
        TrahnGridTradingBot.maybeCreateOppositeLevel bot l = bot)) ∧
    (l.side = Side.sell → l.index = 0 →
      TrahnGridTradingBot.maybeCreateOppositeLevel bot l = bot) := by
  have hside : l.side = Side.buy ∨ l.side = Side.sell := by
    cases h : l.side
    · exact Or.inl rfl
    · exact Or.inr rfl
  refine ⟨?_, ?_, ?_, ?_⟩
  · intro hb adj hadj
    have hlt : l.index + 1 < bot.grid.length := by
      rcases List.get?_eq_some.mp hadj with ⟨h, -⟩
      exact h
    have htn : (((l.index : ℤ) + 1)).toNat = l.index + 1 := by omega
    unfold TrahnGridTradingBot.maybeCreateOppositeLevel getOppositeLevelIndex
    rw [if_pos hb, if_pos (by constructor <;> omega :
      (0 : ℤ) ≤ (l.index : ℤ) + 1 ∧ (l.index : ℤ) + 1 < (bot.grid.length : ℤ))]
    simp only [htn, hadj]
    constructor
    · intro hf
      rw [if_pos hf]
    · intro hf
      rw [if_neg (by rw [hf]; exact Bool.false_ne_true)]
  · intro hb hlen
    unfold TrahnGridTradingBot.maybeCreateOppositeLevel getOppositeLevelIndex
    rw [if_pos hb, if_neg (by rintro ⟨-, h⟩; omega)]
  · intro hs h1 adj hadj
    have hlt : l.index - 1 < bot.grid.length := by
      rcases List.get?_eq_some.mp hadj with ⟨h, -⟩
      exact h
    have hbuy : ¬ l.side = Side.buy := by
      rw [hs]
      intro h
      cases h
    have htn : (((l.index : ℤ) - 1)).toNat = l.index - 1 := by omega
    unfold TrahnGridTradingBot.maybeCreateOppositeLevel getOppositeLevelIndex
    rw [if_neg hbuy, if_pos (by constructor <;> omega :
      (0 : ℤ) ≤ (l.index : ℤ) - 1 ∧ (l.index : ℤ) - 1 < (bot.grid.length : ℤ))]
    simp only [htn, hadj]
    constructor
    · intro hf
      rw [if_pos hf]
    · intro hf
      rw [if_neg (by rw [hf]; exact Bool.false_ne_true)]
  · intro hs h0
    have hbuy : ¬ l.side = Side.buy := by
      rw [hs]
      intro h
      cases h
    unfold TrahnGridTradingBot.maybeCreateOppositeLevel getOppositeLevelIndex
    rw [if_neg hbuy, if_neg (by rintro ⟨h, -⟩; omega)]

/-- C5 witness: in a two-level grid with both levels filled, resetting
after the Buy at index 0 clears the Sell at index 1. -/
theorem maybeCreateOppositeLevel_spec_witness :
    ((GridLevel.mk 0 98 Side.buy 1 true (some 1) (some 1)).side = Side.buy →
      ∀ adj, (TrahnGridTradingBot.mk true 2 2 100 100
          [GridLevel.mk 0 98 Side.buy 1 true (some 1) (some 1),
           GridLevel.mk 1 102 Side.sell 1 true (some 2) (some 2)] 100 0 0
          (PaperWallet.mk 1 1000 1 1000 [] 0 0) 0).grid.get?
          ((GridLevel.mk 0 98 Side.buy 1 true (some 1) (some 1)).index + 1) = some adj →
      (adj.filled = true →
        TrahnGridTradingBot.maybeCreateOppositeLevel
          (TrahnGridTradingBot.mk true 2 2 100 100
            [GridLevel.mk 0 98 Side.buy 1 true (some 1) (some 1),
             GridLevel.mk 1 102 Side.sell 1 true (some 2) (some 2)] 100 0 0
            (PaperWallet.mk 1 1000 1 1000 [] 0 0) 0)
          (GridLevel.mk 0 98 Side.buy 1 true (some 1) (some 1)) =
          TrahnGridTradingBot.saveState
            { TrahnGridTradingBot.mk true 2 2 100 100
                [GridLevel.mk 0 98 Side.buy 1 true (some 1) (some 1),
                 GridLevel.mk 1 102 Side.sell 1 true (some 2) (some 2)] 100 0 0
                (PaperWallet.mk 1 1000 1 1000 [] 0 0) 0 with
              grid := (TrahnGridTradingBot.mk true 2 2 100 100
                [GridLevel.mk 0 98 Side.buy 1 true (some 1) (some 1),
                 GridLevel.mk 1 102 Side.sell 1 true (some 2) (some 2)] 100 0 0
                (PaperWallet.mk 1 1000 1 1000 [] 0 0) 0).grid.set
                ((GridLevel.mk 0 98 Side.buy 1 true (some 1) (some 1)).index + 1)
                (GridLevel.mk adj.index adj.price adj.side adj.quantity
                  false none none) }) ∧
      (adj.filled = false →
        TrahnGridTradingBot.maybeCreateOppositeLevel
          (TrahnGridTradingBot.mk true 2 2 100 100
            [GridLevel.mk 0 98 Side.buy 1 true (some 1) (some 1),
             GridLevel.mk 1 102 Side.sell 1 true (some 2) (some 2)] 100 0 0
            (PaperWallet.mk 1 1000 1 1000 [] 0 0) 0)
          (GridLevel.mk 0 98 Side.buy 1 true (some 1) (some 1)) =
          TrahnGridTradingBot.mk true 2 2 100 100
            [GridLevel.mk 0 98 Side.buy 1 true (some 1) (some 1),
             GridLevel.mk 1 102 Side.sell 1 true (some 2) (some 2)] 100 0 0
            (PaperWallet.mk 1 1000 1 1000 [] 0 0) 0)) ∧
    ((GridLevel.mk 0 98 Side.buy 1 true (some 1) (some 1)).side = Side.buy →
      (TrahnGridTradingBot.mk true 2 2 100 100
        [GridLevel.mk 0 98 Side.buy 1 true (some 1) (some 1),
         GridLevel.mk 1 102 Side.sell 1 true (some 2) (some 2)] 100 0 0
        (PaperWallet.mk 1 1000 1 1000 [] 0 0) 0).grid.length ≤
        (GridLevel.mk 0 98 Side.buy 1 true (some 1) (some 1)).index + 1 →
      TrahnGridTradingBot.maybeCreateOppositeLevel
        (TrahnGridTradingBot.mk true 2 2 100 100
          [GridLevel.mk 0 98 Side.buy 1 true (some 1) (some 1),
           GridLevel.mk 1 102 Side.sell 1 true (some 2) (some 2)] 100 0 0
          (PaperWallet.mk 1 1000 1 1000 [] 0 0) 0)
        (GridLevel.mk 0 98 Side.buy 1 true (some 1) (some 1)) =
        TrahnGridTradingBot.mk true 2 2 100 100
          [GridLevel.mk 0 98 Side.buy 1 true (some 1) (some 1),
           GridLevel.mk 1 102 Side.sell 1 true (some 2) (some 2)] 100 0 0
          (PaperWallet.mk 1 1000 1 1000 [] 0 0) 0) ∧
    ((GridLevel.mk 0 98 Side.buy 1 true (some 1) (some 1)).side = Side.sell →
      1 ≤ (GridLevel.mk 0 98 Side.buy 1 true (some 1) (some 1)).index →
      ∀ adj, (TrahnGridTradingBot.mk true 2 2 100 100
          [GridLevel.mk 0 98 Side.buy 1 true (some 1) (some 1),
           GridLevel.mk 1 102 Side.sell 1 true (some 2) (some 2)] 100 0 0
          (PaperWallet.mk 1 1000 1 1000 [] 0 0) 0).grid.get?
          ((GridLevel.mk 0 98 Side.buy 1 true (some 1) (some 1)).index - 1) = some adj →
      (adj.filled = true →
        TrahnGridTradingBot.maybeCreateOppositeLevel
          (TrahnGridTradingBot.mk true 2 2 100 100
            [GridLevel.mk 0 98 Side.buy 1 true (some 1) (some 1),
             GridLevel.mk 1 102 Side.sell 1 true (some 2) (some 2)] 100 0 0
            (PaperWallet.mk 1 1000 1 1000 [] 0 0) 0)
          (GridLevel.mk 0 98 Side.buy 1 true (some 1) (some 1)) =
          TrahnGridTradingBot.saveState
            { TrahnGridTradingBot.mk true 2 2 100 100
                [GridLevel.mk 0 98 Side.buy 1 true (some 1) (some 1),
                 GridLevel.mk 1 102 Side.sell 1 true (some 2) (some 2)] 100 0 0
                (PaperWallet.mk 1 1000 1 1000 [] 0 0) 0 with
              grid := (TrahnGridTradingBot.mk true 2 2 100 100
                [GridLevel.mk 0 98 Side.buy 1 true (some 1) (some 1),
                 GridLevel.mk 1 102 Side.sell 1 true (some 2) (some 2)] 100 0 0
                (PaperWallet.mk 1 1000 1 1000 [] 0 0) 0).grid.set
                ((GridLevel.mk 0 98 Side.buy 1 true (some 1) (some 1)).index - 1)
                (GridLevel.mk adj.index adj.price adj.side adj.quantity
                  false none none) }) ∧
      (adj.filled = false →
        TrahnGridTradingBot.maybeCreateOppositeLevel
          (TrahnGridTradingBot.mk true 2 2 100 100
            [GridLevel.mk 0 98 Side.buy 1 true (some 1) (some 1),
             GridLevel.mk 1 102 Side.sell 1 true (some 2) (some 2)] 100 0 0
            (PaperWallet.mk 1 1000 1 1000 [] 0 0) 0)
          (GridLevel.mk 0 98 Side.buy 1 true (some 1) (some 1)) =
          TrahnGridTradingBot.mk true 2 2 100 100
            [GridLevel.mk 0 98 Side.buy 1 true (some 1) (some 1),
             GridLevel.mk 1 102 Side.sell 1 true (some 2) (some 2)] 100 0 0
            (PaperWallet.mk 1 1000 1 1000 [] 0 0) 0)) ∧
    ((GridLevel.mk 0 98 Side.buy 1 true (some 1) (some 1)).side = Side.sell →
      (GridLevel.mk 0 98 Side.buy 1 true (some 1) (some 1)).index = 0 →
      TrahnGridTradingBot.maybeCreateOppositeLevel
        (TrahnGridTradingBot.mk true 2 2 100 100
          [GridLevel.mk 0 98 Side.buy 1 true (some 1) (some 1),
           GridLevel.mk 1 102 Side.sell 1 true (some 2) (some 2)] 100 0 0
          (PaperWallet.mk 1 1000 1 1000 [] 0 0) 0)
        (GridLevel.mk 0 98 Side.buy 1 true (some 1) (some 1)) =
        TrahnGridTradingBot.mk true 2 2 100 100
          [GridLevel.mk 0 98 Side.buy 1 true (some 1) (some 1),
           GridLevel.mk 1 102 Side.sell 1 true (some 2) (some 2)] 100 0 0
          (PaperWallet.mk 1 1000 1 1000 [] 0 0) 0) :=
  maybeCreateOppositeLevel_spec
    (TrahnGridTradingBot.mk true 2 2 100 100
      [GridLevel.mk 0 98 Side.buy 1 true (some 1) (some 1),
       GridLevel.mk 1 102 Side.sell 1 true (some 2) (some 2)] 100 0 0
      (PaperWallet.mk 1 1000 1 1000 [] 0 0) 0)
    (GridLevel.mk 0 98 Side.buy 1 true (some 1) (some 1))

/-- C5 counterexample: filling the topmost Sell (index 1 of a two-level
grid) does NOT "reset nothing": it resets the previously filled level at
index 0 — refuting the claim's out-of-bounds clause for the topmost
Sell. -/
theorem maybeCreateOppositeLevel_topmost_sell :
    ((TrahnGridTradingBot.maybeCreateOppositeLevel
        (TrahnGridTradingBot.mk true 2 2 100 100
          [GridLevel.mk 0 98 Side.buy 1 true (some 1) (some 1),
           GridLevel.mk 1 102 Side.sell 1 true (some 2) (some 2)] 100 0 0
          (PaperWallet.mk 1 1000 1 1000 [] 0 0) 0)
        (GridLevel.mk 1 102 Side.sell 1 true (some 2) (some 2))).grid.map
      (·.filled) = [false, true]) ∧
    ((TrahnGridTradingBot.mk true 2 2 100 100
        [GridLevel.mk 0 98 Side.buy 1 true (some 1) (some 1),
         GridLevel.mk 1 102 Side.sell 1 true (some 2) (some 2)] 100 0 0
        (PaperWallet.mk 1 1000 1 1000 [] 0 0) 0).grid.map (·.filled) =
      [true, true]) := by
  norm_num [TrahnGridTradingBot.maybeCreateOppositeLevel, getOppositeLevelIndex,
    TrahnGridTradingBot.saveState]

/-! ## C9: no non-negative-ETH invariant on the paper buy path -/

/-- C9: the paper buy path checks only the USDC balance; the gas cost is
afterwards deducted from the ETH balance unconditionally, so there is a
wallet state (non-negative ETH smaller than the gas cost) from which a
paper buy succeeds and leaves the paper wallet's ETH balance negative. -/
theorem executeBuy_negative_eth :
    ∃ (env : ExecEnv) (bot : TrahnGridTradingBot) (pos : ℕ) (price : ℚ)
      (res : TrahnGridTradingBot),
      bot.paperTrading = true ∧
      0 ≤ bot.paperWallet.ethBalance ∧
      TrahnGridTradingBot.executeBuy env bot pos price = (res, none) ∧
      res.paperWallet.ethBalance < 0 := by
  refine ⟨ExecEnv.mk 0 (5 / 100) true 7 11,
    TrahnGridTradingBot.mk true 10 2 100 3000
      [GridLevel.mk 0 3000 Side.buy (1 / 100) false none none] 2000 0 0
      (PaperWallet.mk 0 1000 0 1000 [] 0 0) 0,
    0, 2000,
    (TrahnGridTradingBot.executeBuy (ExecEnv.mk 0 (5 / 100) true 7 11)
      (TrahnGridTradingBot.mk true 10 2 100 3000
        [GridLevel.mk 0 3000 Side.buy (1 / 100) false none none] 2000 0 0
        (PaperWallet.mk 0 1000 0 1000 [] 0 0) 0) 0 2000).1,
    rfl, le_refl 0, ?_, ?_⟩
  · rw [Prod.ext_iff]
    refine ⟨rfl, ?_⟩
    norm_num [TrahnGridTradingBot.executeBuy, PaperWallet.executeBuy,
      PaperWallet.deductGas, PaperWallet.recordTrade, PaperWallet.saveState,
      TrahnGridTradingBot.saveState, TrahnGridTradingBot.maybeCreateOppositeLevel,
      getOppositeLevelIndex]
  · norm_num [TrahnGridTradingBot.executeBuy, PaperWallet.executeBuy,
      PaperWallet.deductGas, PaperWallet.recordTrade, PaperWallet.saveState,
      TrahnGridTradingBot.saveState, TrahnGridTradingBot.maybeCreateOppositeLevel,
      getOppositeLevelIndex]

/-! ## C10: non-atomicity of paper execution failure -/

/-- C10: in paper mode with a sufficient USDC balance, the wallet
debit/credit, the gas deduction and the trade record are all applied
before the transaction simulation runs; when the simulation fails the
call throws, the grid (hence the triggered level's `filled` flag) and the
trade counter are unchanged, but the paper wallet permanently keeps the
debit/credit, the gas deduction, and the appended trade record with two
further persisted saves. -/
theorem executeBuy_sim_failure_spec (env : ExecEnv) (bot : TrahnGridTradingBot)
    (pos : ℕ) (price : ℚ) (level : GridLevel)
    (hpaper : bot.paperTrading = true)
    (hlevel : bot.grid.get? pos = some level)
    (hbal : ¬ bot.paperWallet.usdcBalance < level.quantity * price)
    (hsim : env.sendOk = false) :
    TrahnGridTradingBot.executeBuy env bot pos price =
      ({ bot with
          paperWallet := PaperWallet.mk
            (bot.paperWallet.ethBalance + level.quantity * (1 - env.slippage)
              - env.gasCost)
            (bot.paperWallet.usdcBalance - level.quantity * price)
            bot.paperWallet.initialETH bot.paperWallet.initialUSDC
            (bot.paperWallet.trades ++ [PaperTrade.mk
              (bot.paperWallet.trades.length + 1) Side.buy level.index level.price
              price (level.quantity * (1 - env.slippage)) (level.quantity * price)
              (env.slippage * 100) env.gasCost
              (bot.paperWallet.ethBalance + level.quantity * (1 - env.slippage)
                - env.gasCost)
              (bot.paperWallet.usdcBalance - level.quantity * price)])
            (bot.paperWallet.totalGasSpent + env.gasCost)
            (bot.paperWallet.saves + 2) },
        some "Simulation failed") ∧
    (TrahnGridTradingBot.executeBuy env bot pos price).1.grid = bot.grid ∧
    (TrahnGridTradingBot.executeBuy env bot pos price).1.tradesExecuted =
      bot.tradesExecuted := by
  have h : TrahnGridTradingBot.executeBuy env bot pos price =
      ({ bot with
          paperWallet := PaperWallet.mk
            (bot.paperWallet.ethBalance + level.quantity * (1 - env.slippage)
              - env.gasCost)
            (bot.paperWallet.usdcBalance - level.quantity * price)
            bot.paperWallet.initialETH bot.paperWallet.initialUSDC
            (bot.paperWallet.trades ++ [PaperTrade.mk
              (bot.paperWallet.trades.length + 1) Side.buy level.index level.price
              price (level.quantity * (1 - env.slippage)) (level.quantity * price)
              (env.slippage * 100) env.gasCost
              (bot.paperWallet.ethBalance + level.quantity * (1 - env.slippage)
                - env.gasCost)
              (bot.paperWallet.usdcBalance - level.quantity * price)])
            (bot.paperWallet.totalGasSpent + env.gasCost)
            (bot.paperWallet.saves + 2) },
        some "Simulation failed") := by
    unfold TrahnGridTradingBot.executeBuy
    rw [hlevel]
    simp only [if_pos hpaper, if_neg hbal, PaperWallet.executeBuy,
      PaperWallet.deductGas, PaperWallet.recordTrade, PaperWallet.saveState,
      hsim, Bool.false_eq_true, if_false]
  refine ⟨h, ?_, ?_⟩
  · rw [h]
  · rw [h]

/-- C10 witness: the general statement at a concrete bot whose USDC
balance covers the buy, with a failing simulation. -/
theorem executeBuy_sim_failure_witness :
    TrahnGridTradingBot.executeBuy (ExecEnv.mk 0 (5 / 100) false 7 11)
      (TrahnGridTradingBot.mk true 10 2 100 3000
        [GridLevel.mk 0 3000 Side.buy (1 / 100) false none none] 2000 0 0
        (PaperWallet.mk 0 1000 0 1000 [] 0 0) 0) 0 2000 =
      ({ TrahnGridTradingBot.mk true 10 2 100 3000
          [GridLevel.mk 0 3000 Side.buy (1 / 100) false none none] 2000 0 0
          (PaperWallet.mk 0 1000 0 1000 [] 0 0) 0 with
          paperWallet := PaperWallet.mk
            ((PaperWallet.mk 0 1000 0 1000 [] 0 0).ethBalance +
              (GridLevel.mk 0 3000 Side.buy (1 / 100) false none none).quantity *
                (1 - (ExecEnv.mk 0 (5 / 100) false 7 11).slippage)
              - (ExecEnv.mk 0 (5 / 100) false 7 11).gasCost)
            ((PaperWallet.mk 0 1000 0 1000 [] 0 0).usdcBalance -
              (GridLevel.mk 0 3000 Side.buy (1 / 100) false none none).quantity * 2000)
            (PaperWallet.mk 0 1000 0 1000 [] 0 0).initialETH
            (PaperWallet.mk 0 1000 0 1000 [] 0 0).initialUSDC
            ((PaperWallet.mk 0 1000 0 1000 [] 0 0).trades ++ [PaperTrade.mk
              ((PaperWallet.mk 0 1000 0 1000 [] 0 0).trades.length + 1) Side.buy
              (GridLevel.mk 0 3000 Side.buy (1 / 100) false none none).index
              (GridLevel.mk 0 3000 Side.buy (1 / 100) false none none).price
              2000
              ((GridLevel.mk 0 3000 Side.buy (1 / 100) false none none).quantity *
                (1 - (ExecEnv.mk 0 (5 / 100) false 7 11).slippage))
              ((GridLevel.mk 0 3000 Side.buy (1 / 100) false none none).quantity * 2000)
              ((ExecEnv.mk 0 (5 / 100) false 7 11).slippage * 100)
              (ExecEnv.mk 0 (5 / 100) false 7 11).gasCost
              ((PaperWallet.mk 0 1000 0 1000 [] 0 0).ethBalance +
                (GridLevel.mk 0 3000 Side.buy (1 / 100) false none none).quantity *
                  (1 - (ExecEnv.mk 0 (5 / 100) false 7 11).slippage)
                - (ExecEnv.mk 0 (5 / 100) false 7 11).gasCost)
              ((PaperWallet.mk 0 1000 0 1000 [] 0 0).usdcBalance -
                (GridLevel.mk 0 3000 Side.buy (1 / 100) false none none).quantity * 2000)])
            ((PaperWallet.mk 0 1000 0 1000 [] 0 0).totalGasSpent +
              (ExecEnv.mk 0 (5 / 100) false 7 11).gasCost)
            ((PaperWallet.mk 0 1000 0 1000 [] 0 0).saves + 2) },
        some "Simulation failed") ∧
    (TrahnGridTradingBot.executeBuy (ExecEnv.mk 0 (5 / 100) false 7 11)
      (TrahnGridTradingBot.mk true 10 2 100 3000
        [GridLevel.mk 0 3000 Side.buy (1 / 100) false none none] 2000 0 0
        (PaperWallet.mk 0 1000 0 1000 [] 0 0) 0) 0 2000).1.grid =
      (TrahnGridTradingBot.mk true 10 2 100 3000
        [GridLevel.mk 0 3000 Side.buy (1 / 100) false none none] 2000 0 0
        (PaperWallet.mk 0 1000 0 1000 [] 0 0) 0).grid ∧
    (TrahnGridTradingBot.executeBuy (ExecEnv.mk 0 (5 / 100) false 7 11)
      (TrahnGridTradingBot.mk true 10 2 100 3000
        [GridLevel.mk 0 3000 Side.buy (1 / 100) false none none] 2000 0 0
        (PaperWallet.mk 0 1000 0 1000 [] 0 0) 0) 0 2000).1.tradesExecuted =
      (TrahnGridTradingBot.mk true 10 2 100 3000
        [GridLevel.mk 0 3000 Side.buy (1 / 100) false none none] 2000 0 0
        (PaperWallet.mk 0 1000 0 1000 [] 0 0) 0).tradesExecuted :=
  executeBuy_sim_failure_spec (ExecEnv.mk 0 (5 / 100) false 7 11)
    (TrahnGridTradingBot.mk true 10 2 100 3000
      [GridLevel.mk 0 3000 Side.buy (1 / 100) false none none] 2000 0 0
      (PaperWallet.mk 0 1000 0 1000 [] 0 0) 0) 0 2000
    (GridLevel.mk 0 3000 Side.buy (1 / 100) false none none)
    rfl rfl (by norm_num) rfl

end Trahn
